import Mathlib

/-!
Verification of the rest-of-season simulator and scenario-overlay subsystem
of the fantasy-NFL repository (`src/fantasy_nfl/simulator.py` and
`src/fantasy_nfl/overlays.py`).

The Python code is shallowly embedded: pandas tables become lists of typed
rows, Python dicts become association lists (preserving insertion order),
floats become real numbers, `None`-able values become `Option`, and raised
exceptions become `Except.error`.  File I/O and JSON parsing are a boundary:
the environment record below holds the already-parsed tabular inputs that
the simulator reads from disk.
-/

open scoped BigOperators

/-- The reserved baseline scenario identifier (`BASELINE_SCENARIO_ID`). -/
def BASELINE_SCENARIO_ID : String := "baseline"

/-- `round(x, 2)` from Python, on the real embedding of floats: round to the
nearest multiple of 1/100.  (Python uses round-half-to-even on binary floats;
no statement below depends on the behaviour at an exact half-tie.) -/
noncomputable def round2 (x : ℝ) : ℝ := (round (x * 100) : ℤ) / 100

/-- `round(x, 3)` from Python. -/
noncomputable def round3 (x : ℝ) : ℝ := (round (x * 1000) : ℤ) / 1000

/-- `round(x, 4)` from Python. -/
noncomputable def round4 (x : ℝ) : ℝ := (round (x * 10000) : ℤ) / 10000

/-! ## Tabular rows

A normalized lineup row, as produced by `_load_week_scores` /
`_load_week_projection` after type coercion: `value` is the contents of the
points column (`score_total` for completed weeks, `projected_points` for
projection weeks), `team_id` is the nullable `Int64` column. -/

structure LineupRow where
  team_id : Option ℤ
  espn_player_id : Option ℤ
  player_name : String
  lineup_slot : String
  espn_position : String
  value : ℝ
  counts_for_score : Bool

/-! ## Overlay data model (`overlays.py`) -/

/-- A raw overlay lineup entry: one JSON object from a scenario file's
`entries` list.  Every field is optional, as in the user-edited JSON. -/
structure RawOverlayEntry where
  espn_player_id : Option ℤ := none
  player_name : Option String := none
  lineup_slot : Option String := none
  espn_position : Option String := none
  counts_for_score : Option Bool := none
  score_total : Option ℝ := none
  projected_points : Option ℝ := none
  points : Option ℝ := none

/-- Which points column an overlay is normalized against
(the `value_key` argument of `TeamLineupOverride.normalized_entries`). -/
inductive ValueKey where
  | scoreTotal
  | projectedPoints
deriving DecidableEq

/-- `TeamLineupOverride`: the overlay rows for one team. -/
structure TeamLineupOverride where
  team_id : ℤ
  entries : List RawOverlayEntry

/-- The value lookup of `normalized_entries`: `raw.get(value_key)`, falling
back to `raw.get("points")` and then to the opposite points key, and finally
to `0.0` (`_coerce_float(value) or 0.0`). -/
def RawOverlayEntry.valueFor (raw : RawOverlayEntry) (vk : ValueKey) : ℝ :=
  let primary := match vk with
    | .scoreTotal => raw.score_total
    | .projectedPoints => raw.projected_points
  let other := match vk with
    | .scoreTotal => raw.projected_points
    | .projectedPoints => raw.score_total
  ((primary.orElse fun _ => (raw.points.orElse fun _ => other)).getD 0)

/-- One normalized entry of `TeamLineupOverride.normalized_entries`.  Note
`counts_for_score` defaults to `True` (`bool(raw.get("counts_for_score",
True))`) for BOTH value keys.  (The `score_base`/`score_bonus` passthrough
columns are dropped again by the column harmonisation in the merge and are
not modelled.) -/
def normalizeOverlayEntry (tid : ℤ) (vk : ValueKey) (raw : RawOverlayEntry) : LineupRow :=
  { team_id := some tid
    espn_player_id := raw.espn_player_id
    player_name := raw.player_name.getD ""
    lineup_slot := raw.lineup_slot.getD ""
    espn_position := raw.espn_position.getD ""
    value := raw.valueFor vk
    counts_for_score := raw.counts_for_score.getD true }

/-- `TeamLineupOverride.normalized_entries`. -/
def TeamLineupOverride.normalizedEntries (l : TeamLineupOverride) (vk : ValueKey) :
    List LineupRow :=
  l.entries.map (normalizeOverlayEntry l.team_id vk)

/-- A matchup-level override payload (`CompletedWeekOverride.matchup_overrides`
values, after `from_dict` coercion). -/
structure MatchupOverridePayload where
  home_team_id : Option ℤ := none
  away_team_id : Option ℤ := none
  home_points : Option ℝ := none
  away_points : Option ℝ := none
  winner : Option String := none
  notes : Option String := none

/-- `CompletedWeekOverride`. -/
structure CompletedWeekOverride where
  week : ℤ
  team_lineups : List (ℤ × TeamLineupOverride) := []
  matchup_overrides : List (String × MatchupOverridePayload) := []

/-- `CompletedWeekOverride.as_rows`: concatenate every team lineup's
normalized entries, with `value_key="score_total"`. -/
def CompletedWeekOverride.asRows (w : CompletedWeekOverride) : List LineupRow :=
  w.team_lineups.flatMap fun p => p.2.normalizedEntries .scoreTotal

/-- `ProjectionWeekOverride`. -/
structure ProjectionWeekOverride where
  week : ℤ
  team_lineups : List (ℤ × TeamLineupOverride) := []

/-- `ProjectionWeekOverride.as_rows`, with `value_key="projected_points"`. -/
def ProjectionWeekOverride.asRows (w : ProjectionWeekOverride) : List LineupRow :=
  w.team_lineups.flatMap fun p => p.2.normalizedEntries .projectedPoints

/-- `ScenarioMetadata`. -/
structure ScenarioMetadata where
  scenario_id : String
  season : ℤ
  label : Option String := none
  description : Option String := none
  updated_at : Option String := none
  is_default : Bool := false

/-- `ScenarioOverlay`. -/
structure ScenarioOverlay where
  metadata : ScenarioMetadata
  completed_weeks : List (ℤ × CompletedWeekOverride) := []
  projection_weeks : List (ℤ × ProjectionWeekOverride) := []

/-- `ScenarioOverlay.empty`. -/
def ScenarioOverlay.empty (season : ℤ) (scenario_id : String := BASELINE_SCENARIO_ID) :
    ScenarioOverlay :=
  { metadata :=
      { scenario_id := scenario_id
        season := season
        label := some "Baseline"
        description := some "Official ESPN dataset (no overlays)"
        is_default := true } }

/-- `ScenarioOverlay.get_completed_week`. -/
def ScenarioOverlay.getCompletedWeek (ov : ScenarioOverlay) (week : ℤ) :
    Option CompletedWeekOverride :=
  List.lookup week ov.completed_weeks

/-- `ScenarioOverlay.get_projection_week`. -/
def ScenarioOverlay.getProjectionWeek (ov : ScenarioOverlay) (week : ℤ) :
    Option ProjectionWeekOverride :=
  List.lookup week ov.projection_weeks

/-! ## Overlay merge (`_apply_completed_week_overrides` /
`_apply_projection_overrides`)

The pandas column harmonisation collapses under the typed row schema: the
override frame always carries a `counts_for_score` column (every normalized
entry sets it), so the column-absent defaults (`True` resp. `False`) and the
`fillna` calls are no-ops here, exactly as they are on the frames the code
builds from `normalized_entries` output. -/

/-- The distinct override team ids
(`override_df["team_id"].dropna().unique()`). -/
def overrideTeamIds (rows : List LineupRow) : List ℤ :=
  rows.filterMap (·.team_id)

/-- Keep a base row when its team id is null or not overridden
(`~df["team_id"].isin(team_ids)`; `isin` is false at NA). -/
def keepBaseRow (teamIds : List ℤ) (r : LineupRow) : Bool :=
  match r.team_id with
  | none => true
  | some t => !(teamIds.contains t)

/-- Core of both merge functions: drop the base rows of overridden teams and
append the override rows. -/
def mergeOverrideRows (df : List LineupRow) (rows : List LineupRow) : List LineupRow :=
  if rows.isEmpty then df
  else if df.isEmpty then rows
  else df.filter (keepBaseRow (overrideTeamIds rows)) ++ rows

/-- `_apply_completed_week_overrides` (with `overlay = self._active_overlay`). -/
def applyCompletedWeekOverrides (overlay : Option ScenarioOverlay)
    (df : List LineupRow) (week : ℤ) : List LineupRow :=
  match overlay with
  | none => df
  | some ov =>
    match ov.getCompletedWeek week with
    | none => df
    | some wk => mergeOverrideRows df wk.asRows

/-- `_apply_projection_overrides`. -/
def applyProjectionOverrides (overlay : Option ScenarioOverlay)
    (df : List LineupRow) (week : ℤ) : List LineupRow :=
  match overlay with
  | none => df
  | some ov =>
    match ov.getProjectionWeek week with
    | none => df
    | some wk => mergeOverrideRows df wk.asRows

/-- The rows of one team inside a lineup table. -/
def rowsOfTeam (t : ℤ) (l : List LineupRow) : List LineupRow :=
  l.filter fun r => r.team_id = some t

/-- The overlay rows of team `t` in the completed-week override of week
`week` (empty when the scenario defines no such override). -/
def completedOverlayRows (ov : Option ScenarioOverlay) (week t : ℤ) : List LineupRow :=
  match ov with
  | none => []
  | some o =>
    match o.getCompletedWeek week with
    | none => []
    | some wk => rowsOfTeam t wk.asRows

/-- The overlay rows of team `t` in the projection-week override of week
`week`. -/
def projectionOverlayRows (ov : Option ScenarioOverlay) (week t : ℤ) : List LineupRow :=
  match ov with
  | none => []
  | some o =>
    match o.getProjectionWeek week with
    | none => []
    | some wk => rowsOfTeam t wk.asRows

/-! ## Simulator data model (`simulator.py`) -/

/-- `TeamMeta`. -/
structure TeamMeta where
  team_id : ℤ
  name : String
  -- `abbrev` is a Lean keyword, hence the trailing underscore
  abbrev_ : Option String
  owners : List String
  logo_url : Option String

/-- One lineup entry of a `TeamProjection` (the dict built in
`_summarize_team_points`). -/
structure LineupEntry where
  espn_player_id : Option ℤ
  player_name : String
  lineup_slot : String
  espn_position : String
  projected_points : ℝ
  counts_for_score : Bool

/-- `TeamProjection`. -/
structure TeamProjection where
  team : TeamMeta
  projected_points : ℝ
  starters : List LineupEntry
  bench : List LineupEntry

/-- `MatchupProjection`. -/
structure MatchupProjection where
  week : ℤ
  matchup_id : String
  home : TeamProjection
  away : TeamProjection
  home_win_probability : ℝ
  away_win_probability : ℝ

/-- `MatchupProjection.favorite_team_id`. -/
noncomputable def MatchupProjection.favoriteTeamId (m : MatchupProjection) : Option ℤ :=
  if m.home_win_probability > m.away_win_probability then some m.home.team.team_id
  else if m.away_win_probability > m.home_win_probability then some m.away.team.team_id
  else none

/-- `MatchupProjection.projected_margin`. -/
def MatchupProjection.projectedMargin (m : MatchupProjection) : ℝ :=
  m.home.projected_points - m.away.projected_points

/-- First-occurrence deduplication, as `pandas.Series.unique` keeps the first
occurrence of each value (auxiliary accumulator form). -/
def dedupFirstAux : List ℤ → List ℤ → List ℤ
  | [], _ => []
  | x :: xs, seen =>
    if x ∈ seen then dedupFirstAux xs seen else x :: dedupFirstAux xs (x :: seen)

/-- `Series.dropna().unique()` on the `team_id` column: the distinct non-null
team ids in first-appearance order. -/
def uniqueTeamIds (table : List LineupRow) : List ℤ :=
  dedupFirstAux (table.filterMap (·.team_id)) []

/-- `list.sort(key=lambda item: item["projected_points"], reverse=True)`:
stable descending sort by entry points. -/
noncomputable def sortByPointsDesc (l : List LineupEntry) : List LineupEntry :=
  l.mergeSort fun a b => decide (b.projected_points ≤ a.projected_points)

/-- The lineup-entry dict built for one table row in
`_summarize_team_points` (per-entry points are rounded to 2 decimals). -/
noncomputable def rowToEntry (r : LineupRow) : LineupEntry :=
  { espn_player_id := r.espn_player_id
    player_name := r.player_name
    lineup_slot := r.lineup_slot
    espn_position := r.espn_position
    projected_points := round2 r.value
    counts_for_score := r.counts_for_score }

/-- The `TeamProjection` built by `_summarize_team_points` for one team:
partition the team's rows by `counts_for_score` (appending preserves row
order, so the partition is a filter), sum the raw points of the counting
rows, and sort both lists descending by entry points. -/
noncomputable def summarizeOneTeam (meta : TeamMeta) (table : List LineupRow) (tid : ℤ) :
    TeamProjection :=
  let rows := rowsOfTeam tid table
  let counting := rows.filter (·.counts_for_score)
  { team := meta
    projected_points := round2 (counting.map (·.value)).sum
    starters := sortByPointsDesc (counting.map rowToEntry)
    bench := sortByPointsDesc ((rows.filter fun r => !r.counts_for_score).map rowToEntry) }

/-- `_summarize_team_points`: one `TeamProjection` per distinct team id of the
table that is also registered in `teams` (rows of unregistered teams are
dropped).  The result is an association list in first-appearance order, as the
Python dict is. -/
noncomputable def summarizeTeamPoints (teams : List (ℤ × TeamMeta)) (table : List LineupRow) :
    List (ℤ × TeamProjection) :=
  (uniqueTeamIds table).filterMap fun tid =>
    match List.lookup tid teams with
    | none => none
    | some meta => some (tid, summarizeOneTeam meta table tid)

/-! ## Win-probability model (`_estimate_win_probabilities`) -/

/-- The Gauss error function `math.erf`, embedded by its defining integral. -/
noncomputable def erf (x : ℝ) : ℝ :=
  2 / Real.sqrt Real.pi * ∫ t in (0:ℝ)..x, Real.exp (-(t ^ 2))

/-- `_estimate_win_probabilities(home_points, away_points, sigma)`. -/
noncomputable def estimateWinProbabilities (home_points away_points sigma : ℝ) : ℝ × ℝ :=
  let margin := home_points - away_points
  if sigma ≤ 0 then
    if margin > 0 then (1, 0)
    else if margin < 0 then (0, 1)
    else (1/2, 1/2)
  else
    let z := margin / (Real.sqrt 2 * sigma)
    let home_prob := max 0 (min 1 (1/2 * (1 + erf z)))
    (home_prob, 1 - home_prob)

/-! ## Matchup results and live-score enrichment -/

/-- One entry of the `_load_matchup_results` mapping.  `home_points` /
`away_points` are optional because a matchup override may create an entry
without them (the history loop then falls back to the lineup totals);
freshly loaded records always carry them and carry no `status`. -/
structure MatchResult where
  home_team_id : ℤ
  away_team_id : ℤ
  home_points : Option ℝ := none
  away_points : Option ℝ := none
  winner : Option String := none
  status : Option String := none
  notes : Option String := none

/-- One parsed `view-mScoreboard` entry (`_load_scoreboard_live_entries`
output); that loader always sets a non-empty `status`. -/
structure LiveEntry where
  status : Option String := none
  home_team_id : Option ℤ := none
  away_team_id : Option ℤ := none
  home_points : Option ℝ := none
  away_points : Option ℝ := none

/-- Python truthiness of an optional string (`None` and `""` are falsy). -/
def strTruthy : Option String → Bool
  | none => false
  | some s => !(s == "")

/-- `winner_raw in {"HOME", "AWAY", "TIE"}`. -/
def isWinnerFlag (w : String) : Bool :=
  w == "HOME" || w == "AWAY" || w == "TIE"

/-- ASCII upper-casing, structurally (`str.upper()`). -/
def strUpper (s : String) : String :=
  ⟨s.data.map Char.toUpper⟩

/-- `str(payload.get("winner") or "").upper()`. -/
def winnerUpperOf (w : Option String) : String :=
  strUpper (w.getD "")

/-- The live enrichment of one matchup-result payload
(the loop body of `_apply_live_score_overrides`). -/
noncomputable def applyLiveToPayload (scoreboardEntries : List ((ℤ × String) × LiveEntry))
    (rosterTotals : List (ℤ × List (ℤ × ℝ))) (week : ℤ) (matchup_id : String)
    (p : MatchResult) : MatchResult :=
  let winnerRaw := winnerUpperOf p.winner
  let entry? := List.lookup (week, matchup_id) scoreboardEntries
  let weekTotals? := List.lookup week rosterTotals
  let homeLive? : Option ℝ := match entry? with
    | some e => e.home_points
    | none => weekTotals?.bind fun wt => List.lookup p.home_team_id wt
  let awayLive? : Option ℝ := match entry? with
    | some e => e.away_points
    | none => weekTotals?.bind fun wt => List.lookup p.away_team_id wt
  let p1 := match homeLive? with
    | none => p
    | some live =>
      let existing := p.home_points.getD 0
      if existing ≤ 0 ∨ isWinnerFlag winnerRaw = false
      then { p with home_points := some (round2 live) } else p
  let p2 := match awayLive? with
    | none => p1
    | some live =>
      let existing := p1.away_points.getD 0
      if existing ≤ 0 ∨ isWinnerFlag winnerRaw = false
      then { p1 with away_points := some (round2 live) } else p1
  if isWinnerFlag winnerRaw then
    -- `payload.setdefault("status", "final")`
    match p2.status with
    | some _ => p2
    | none => { p2 with status := some "final" }
  else if entry?.isSome && strTruthy (entry?.bind (·.status)) then
    { p2 with status := entry?.bind (·.status) }
  else if (match weekTotals? with | some wt => !wt.isEmpty | none => false) || entry?.isSome then
    { p2 with status := some "in_progress" }
  else p2

/-- `_apply_live_score_overrides`. -/
noncomputable def applyLiveScoreOverrides (scoreboardEntries : List ((ℤ × String) × LiveEntry))
    (rosterTotals : List (ℤ × List (ℤ × ℝ)))
    (results : List ((ℤ × String) × MatchResult)) : List ((ℤ × String) × MatchResult) :=
  if results.isEmpty then results
  else if scoreboardEntries.isEmpty && rosterTotals.isEmpty then results
  else results.map fun kv =>
    (kv.1, applyLiveToPayload scoreboardEntries rosterTotals kv.1.1 kv.1.2 kv.2)

/-- Association-list update with Python-dict semantics: replace in place when
the key exists, append otherwise. -/
def updateAssoc {α : Type} (l : List ((ℤ × String) × α)) (k : ℤ × String) (v : α) :
    List ((ℤ × String) × α) :=
  if (List.lookup k l).isSome then
    l.map fun kv => if kv.1 = k then (k, v) else kv
  else l ++ [(k, v)]

/-- Application of one matchup-level override (`_apply_matchup_overrides`
inner loop body). -/
def applyOneMatchupOverride (amended : List ((ℤ × String) × MatchResult))
    (week : ℤ) (matchup_id : String) (payload : MatchupOverridePayload) :
    List ((ℤ × String) × MatchResult) :=
  let key := (week, matchup_id)
  match List.lookup key amended with
  | none =>
    match payload.home_team_id, payload.away_team_id with
    | some h, some a =>
      let current : MatchResult :=
        { home_team_id := h
          away_team_id := a
          home_points := payload.home_points
          away_points := payload.away_points
          winner := payload.winner
          notes := payload.notes }
      updateAssoc amended key current
    | _, _ => amended  -- insufficient data to create a new matchup entry
  | some cur =>
    let current :=
      { cur with
        home_team_id := payload.home_team_id.getD cur.home_team_id
        away_team_id := payload.away_team_id.getD cur.away_team_id
        home_points := match payload.home_points with
          | some v => some v
          | none => cur.home_points
        away_points := match payload.away_points with
          | some v => some v
          | none => cur.away_points
        winner := match payload.winner with
          | some v => some v
          | none => cur.winner
        notes := match payload.notes with
          | some v => some v
          | none => cur.notes }
    updateAssoc amended key current

/-- `_apply_matchup_overrides`. -/
def applyMatchupOverrides (overlay : Option ScenarioOverlay)
    (results : List ((ℤ × String) × MatchResult)) : List ((ℤ × String) × MatchResult) :=
  match overlay with
  | none => results
  | some ov =>
    ov.completed_weeks.foldl
      (fun amended wkp =>
        wkp.2.matchup_overrides.foldl
          (fun amended mp => applyOneMatchupOverride amended wkp.1 mp.1 mp.2)
          amended)
      results

/-! ## History reconciliation (the per-matchup body of the completed-week
loop of `build_dataset`, lines 676-800) -/

/-- The status classification of a completed-week matchup record: an already
present live status takes precedence; otherwise an explicit winner flag means
`final`, a margin exceeding the 1e-6 tolerance or strictly positive points
mean `in_progress`, and anything else is `scheduled`. -/
noncomputable def classifyStatus (statusRaw winnerUpper : String)
    (home_points away_points : ℝ) : String :=
  if statusRaw = "final" ∨ statusRaw = "in_progress" then statusRaw
  else if isWinnerFlag winnerUpper then "final"
  else if |home_points - away_points| > 1e-6 ∨ home_points > 0 ∨ away_points > 0 then
    "in_progress"
  else "scheduled"

/-- Modelled from the spec: the classification rule as §4.4 states it
("an explicit winner flag ⇒ final; non-zero margin or non-zero points with no
winner flag ⇒ in_progress; otherwise scheduled").  Used to compare the
specified classification with `classifyStatus` above. -/
noncomputable def specClassify (winnerUpper : String) (home_points away_points : ℝ) : String :=
  if isWinnerFlag winnerUpper then "final"
  else if home_points - away_points ≠ 0 ∨ home_points ≠ 0 ∨ away_points ≠ 0 then "in_progress"
  else "scheduled"

/-- The probabilities and result strings of a `final` matchup
(lines 707-724). -/
noncomputable def finalOutcome (winnerUpper : String) (margin : ℝ) :
    (ℝ × ℝ) × (Option String × Option String) :=
  if winnerUpper = "HOME" then ((1, 0), (some "win", some "loss"))
  else if winnerUpper = "AWAY" then ((0, 1), (some "loss", some "win"))
  else if winnerUpper = "TIE" then ((1/2, 1/2), (some "tie", some "tie"))
  else if margin > 1e-6 then ((1, 0), (some "win", some "loss"))
  else if margin < -(1e-6) then ((0, 1), (some "loss", some "win"))
  else ((1/2, 1/2), (some "tie", some "tie"))

/-- One row of `standings_tracker`. -/
structure StandRec where
  wins : ℝ
  losses : ℝ
  ties : ℝ
  points : ℝ

/-- The zero standings record. -/
def StandRec.zero : StandRec := ⟨0, 0, 0, 0⟩

/-- In-place update of one team's tracker record
(`standings_tracker[team_id][...] += ...`). -/
def updStand (tr : List (ℤ × StandRec)) (tid : ℤ) (f : StandRec → StandRec) :
    List (ℤ × StandRec) :=
  tr.map fun p => if p.1 = tid then (p.1, f p.2) else p

/-- One `team_schedule` entry.  Forward-projection entries carry no
`result`/`status`/actual-points keys, hence the `Option` fields. -/
structure ScheduleEntry where
  week : ℤ
  matchup_id : String
  opponent_team_id : ℤ
  is_home : Bool
  projected_points : ℝ
  opponent_projected_points : ℝ
  win_probability : ℝ
  projected_margin : ℝ
  is_actual : Bool
  result : Option String := none
  status : Option String := none
  actual_points : Option ℝ := none
  opponent_actual_points : Option ℝ := none

/-- One serialized matchup of the `weeks[]` payload (`_matchup_to_dict`,
plus the actual-week extras). -/
structure WeekMatchup where
  matchup_id : String
  week : ℤ
  home : TeamProjection
  away : TeamProjection
  favorite_team_id : Option ℤ
  projected_margin : ℝ
  home_win_probability : ℝ
  away_win_probability : ℝ
  is_actual : Bool
  status : Option String := none
  result_home : Option String := none
  result_away : Option String := none
  final_score_home : Option ℝ := none
  final_score_away : Option ℝ := none

/-- `_matchup_to_dict` (margin rounded to 2 decimals, probabilities to 4). -/
noncomputable def matchupToDict (m : MatchupProjection) : WeekMatchup :=
  { matchup_id := m.matchup_id
    week := m.week
    home := m.home
    away := m.away
    favorite_team_id := m.favoriteTeamId
    projected_margin := round2 m.projectedMargin
    home_win_probability := round4 m.home_win_probability
    away_win_probability := round4 m.away_win_probability
    is_actual := false }

/-- The output of processing one completed-week matchup. -/
structure HistoryOut where
  tracker : List (ℤ × StandRec)
  homeEntry : ScheduleEntry
  awayEntry : ScheduleEntry
  payload : WeekMatchup

/-- The completed-week per-matchup body of `build_dataset` (lines 688-800):
resolve points, classify, update the standings tracker for `final` matchups
only, and emit the two schedule entries and the serialized matchup. -/
noncomputable def historyMatchup (tracker : List (ℤ × StandRec)) (week : ℤ)
    (matchup_id : String) (home_team_id away_team_id : ℤ) (rec : MatchResult)
    (home_proj away_proj : TeamProjection) : HistoryOut :=
  let home_points := rec.home_points.getD home_proj.projected_points
  let away_points := rec.away_points.getD away_proj.projected_points
  let winnerUpper := winnerUpperOf rec.winner
  let margin := home_points - away_points
  let statusRaw := classifyStatus (rec.status.getD "") winnerUpper home_points away_points
  let isFinal := statusRaw = "final"
  let outcome := if isFinal then finalOutcome winnerUpper margin
    else ((1/2, 1/2), (none, none))
  let home_prob_final := outcome.1.1
  let away_prob_final := outcome.1.2
  let home_result := outcome.2.1
  let away_result := outcome.2.2
  let home_proj' := { home_proj with projected_points := round2 home_points }
  let away_proj' := { away_proj with projected_points := round2 away_points }
  let tracker' :=
    if isFinal then
      let t1 := updStand tracker home_team_id fun r => { r with points := r.points + home_points }
      let t2 := updStand t1 away_team_id fun r => { r with points := r.points + away_points }
      if home_result = some "win" then
        updStand (updStand t2 home_team_id fun r => { r with wins := r.wins + 1 })
          away_team_id fun r => { r with losses := r.losses + 1 }
      else if home_result = some "loss" then
        updStand (updStand t2 home_team_id fun r => { r with losses := r.losses + 1 })
          away_team_id fun r => { r with wins := r.wins + 1 }
      else
        updStand (updStand t2 home_team_id fun r => { r with ties := r.ties + 1 })
          away_team_id fun r => { r with ties := r.ties + 1 }
    else tracker
  let payload0 := matchupToDict
    { week := week, matchup_id := matchup_id, home := home_proj', away := away_proj'
      home_win_probability := home_prob_final, away_win_probability := away_prob_final }
  { tracker := tracker'
    homeEntry :=
      { week := week, matchup_id := matchup_id, opponent_team_id := away_team_id
        is_home := true, projected_points := home_points
        opponent_projected_points := away_points, win_probability := home_prob_final
        projected_margin := margin, is_actual := true, result := home_result
        status := some statusRaw, actual_points := some home_points
        opponent_actual_points := some away_points }
    awayEntry :=
      { week := week, matchup_id := matchup_id, opponent_team_id := home_team_id
        is_home := false, projected_points := away_points
        opponent_projected_points := home_points, win_probability := away_prob_final
        projected_margin := -margin, is_actual := true, result := away_result
        status := some statusRaw, actual_points := some away_points
        opponent_actual_points := some home_points }
    payload :=
      { payload0 with
        is_actual := true
        status := some statusRaw
        result_home := home_result
        result_away := away_result
        final_score_home := some (round2 home_points)
        final_score_away := some (round2 away_points) } }

/-! ## Forward projection (the per-matchup body of the projection-week loop
of `build_dataset`, lines 819-884) -/

/-- The output of processing one projected matchup. -/
structure ForwardOut where
  tracker : List (ℤ × StandRec)
  proj : MatchupProjection
  homeEntry : ScheduleEntry
  awayEntry : ScheduleEntry

/-- The projection-week per-matchup body of `build_dataset`: estimate win
probabilities, accumulate fractional wins/losses plus full projected points,
count a tie when the two probabilities differ by less than 1e-6, and emit the
two schedule entries. -/
noncomputable def forwardMatchup (tracker : List (ℤ × StandRec)) (sigma : ℝ) (week : ℤ)
    (matchup_id : String) (home_team_id away_team_id : ℤ)
    (home_proj away_proj : TeamProjection) : ForwardOut :=
  let probs := estimateWinProbabilities home_proj.projected_points
    away_proj.projected_points sigma
  let home_prob := probs.1
  let away_prob := probs.2
  let t1 := updStand tracker home_team_id fun r =>
    { r with wins := r.wins + home_prob, losses := r.losses + away_prob
             points := r.points + home_proj.projected_points }
  let t2 := if |home_prob - away_prob| < 1e-6 then
      updStand t1 home_team_id fun r => { r with ties := r.ties + 1 }
    else t1
  let t3 := updStand t2 away_team_id fun r =>
    { r with wins := r.wins + away_prob, losses := r.losses + home_prob
             points := r.points + away_proj.projected_points }
  let t4 := if |home_prob - away_prob| < 1e-6 then
      updStand t3 away_team_id fun r => { r with ties := r.ties + 1 }
    else t3
  let delta := home_proj.projected_points - away_proj.projected_points
  { tracker := t4
    proj := { week := week, matchup_id := matchup_id, home := home_proj, away := away_proj
              home_win_probability := home_prob, away_win_probability := away_prob }
    homeEntry :=
      { week := week, matchup_id := matchup_id, opponent_team_id := away_team_id
        is_home := true, projected_points := home_proj.projected_points
        opponent_projected_points := away_proj.projected_points
        win_probability := home_prob, projected_margin := delta, is_actual := false }
    awayEntry :=
      { week := week, matchup_id := matchup_id, opponent_team_id := home_team_id
        is_home := false, projected_points := away_proj.projected_points
        opponent_projected_points := home_proj.projected_points
        win_probability := away_prob, projected_margin := -delta, is_actual := false } }

/-! ## Standings assembly, dataset payloads -/

/-- One row of the `standings[]` payload (lines 896-912): record values are
rounded, and the per-game average divides total points by `wins + losses`
(guarding the zero case); the tie count is not part of the divisor. -/
structure StandingsRow where
  team : TeamMeta
  wins : ℝ
  losses : ℝ
  ties : ℝ
  projected_points : ℝ
  average_projected_points : ℝ
  games_remaining : ℕ

/-- The standings entry built from one tracker record. -/
noncomputable def standingsRowOf (meta : TeamMeta) (r : StandRec) (gr : ℕ) : StandingsRow :=
  let projected_games := r.wins + r.losses
  { team := meta
    wins := round3 r.wins
    losses := round3 r.losses
    ties := round3 r.ties
    projected_points := round2 r.points
    average_projected_points := round2 (if projected_games = 0 then 0 else r.points / projected_games)
    games_remaining := gr }

/-- One week of the `weeks[]` payload. -/
structure WeekPayload where
  week : ℤ
  matchups : List WeekMatchup

/-- The `sources` object of the dataset. -/
structure SourcesInfo where
  projections_weeks : List ℤ
  completed_weeks : List ℤ
  scenario_id : String

/-- The `scenario.overrides` object. -/
structure OverrideWeeks where
  completed_weeks : List ℤ
  projection_weeks : List ℤ

/-- The `scenario` summary object. -/
structure ScenarioSummary where
  id : String
  label : String
  season : ℤ
  is_baseline : Bool
  overrides : OverrideWeeks
  description : Option String := none
  updated_at : Option String := none

/-! ## Monte Carlo estimator (`_run_monte_carlo`) -/

/-- The base record snapshot taken after history reconciliation
(`base_records`): wins, losses and points only. -/
structure BaseRec where
  wins : ℝ
  losses : ℝ
  points : ℝ

/-- Per-team Monte Carlo aggregates. -/
structure Agg where
  win_total : ℝ := 0
  loss_total : ℝ := 0
  points_total : ℝ := 0
  seed_counts : List (ℕ × ℕ) := []
  playoff_count : ℕ := 0
  top_seed_count : ℕ := 0
  best_seed : Option ℕ := none
  worst_seed : ℕ := 0

/-- One team row of the Monte Carlo summary. -/
structure MonteCarloTeamRow where
  team : TeamMeta
  average_wins : ℝ
  average_losses : ℝ
  average_points : ℝ
  games_remaining : ℕ
  playoff_odds : ℝ
  top_seed_odds : ℝ
  seed_distribution : List (ℕ × ℝ)
  best_seed : Option ℕ
  worst_seed : ℕ
  median_seed : Option ℕ

/-- The Monte Carlo summary object. -/
structure MonteCarloSummary where
  iterations : ℤ
  playoff_slots : ℤ
  random_seed : Option ℤ
  teams : List MonteCarloTeamRow

/-- Association lookup with default. -/
def lookupD {α : Type} (l : List (ℤ × α)) (k : ℤ) (d : α) : α :=
  (List.lookup k l).getD d

/-- In-place update of one key of a generic association list keyed by `ℤ`. -/
def updAssoc {α : Type} (l : List (ℤ × α)) (tid : ℤ) (f : α → α) : List (ℤ × α) :=
  l.map fun p => if p.1 = tid then (p.1, f p.2) else p

/-- `defaultdict(int)` increment of a seed counter. -/
def incrSeedCount (sc : List (ℕ × ℕ)) (seed : ℕ) : List (ℕ × ℕ) :=
  if (List.lookup seed sc).isSome then
    sc.map fun p => if p.1 = seed then (p.1, p.2 + 1) else p
  else sc ++ [(seed, 1)]

/-- The matchups grouped by week and replayed in ascending week order
(`matchup_groups` and `for week in sorted(matchup_groups.keys())`). -/
def mcWeekOrdered (matchups : List MatchupProjection) : List MatchupProjection :=
  let weeks := (dedupFirstAux (matchups.map (·.week)) []).mergeSort fun a b => decide (a ≤ b)
  weeks.flatMap fun w => matchups.filter fun m => m.week == w

/-- State of one Monte Carlo iteration: the next random-stream index and the
iteration-local wins/losses/points maps. -/
structure MCIterState where
  k : ℕ
  wins : List (ℤ × ℝ)
  losses : List (ℤ × ℝ)
  points : List (ℤ × ℝ)

/-- Replay every forward-looking matchup once, drawing one uniform number per
matchup: `roll < home_win_probability` means the home side wins. -/
noncomputable def mcPlayMatchups (rolls : ℕ → ℝ) (ordered : List MatchupProjection)
    (st0 : MCIterState) : MCIterState :=
  ordered.foldl
    (fun st m =>
      let home_id := m.home.team.team_id
      let away_id := m.away.team.team_id
      let st1 := { st with
        points := updAssoc (updAssoc st.points home_id (· + m.home.projected_points))
          away_id (· + m.away.projected_points) }
      let roll := rolls st1.k
      if roll < m.home_win_probability then
        { st1 with k := st1.k + 1
                   wins := updAssoc st1.wins home_id (· + 1)
                   losses := updAssoc st1.losses away_id (· + 1) }
      else
        { st1 with k := st1.k + 1
                   wins := updAssoc st1.wins away_id (· + 1)
                   losses := updAssoc st1.losses home_id (· + 1) })
    st0

/-- The ranking of one iteration: team ids sorted by (wins, points)
descending, stably (`sorted(..., reverse=True)`). -/
noncomputable def mcRank (team_ids : List ℤ) (wins points : List (ℤ × ℝ)) : List ℤ :=
  team_ids.mergeSort fun t1 t2 =>
    decide (lookupD wins t2 0 < lookupD wins t1 0) ||
      (decide (lookupD wins t1 0 = lookupD wins t2 0) &&
        decide (lookupD points t2 0 ≤ lookupD points t1 0))

/-- The aggregate update of one iteration (the `enumerate(standings_iteration,
start=1)` loop). -/
noncomputable def mcSeedUpdate (aggs : List (ℤ × Agg)) (slots : ℤ) (ranked : List ℤ)
    (wins losses points : List (ℤ × ℝ)) : List (ℤ × Agg) :=
  ranked.enum.foldl
    (fun aggs ip =>
      let seed := ip.1 + 1
      let tid := ip.2
      updAssoc aggs tid fun a =>
        { a with
          win_total := a.win_total + lookupD wins tid 0
          loss_total := a.loss_total + lookupD losses tid 0
          points_total := a.points_total + lookupD points tid 0
          seed_counts := incrSeedCount a.seed_counts seed
          playoff_count := a.playoff_count + (if (seed : ℤ) ≤ slots then 1 else 0)
          top_seed_count := a.top_seed_count + (if seed = 1 then 1 else 0)
          best_seed := some (match a.best_seed with
            | none => seed
            | some b => min b seed)
          worst_seed := max a.worst_seed seed })
    aggs

/-- One full Monte Carlo iteration starting from the reconciled baseline. -/
noncomputable def mcIteration (rolls : ℕ → ℝ) (ordered : List MatchupProjection)
    (team_ids : List ℤ) (base_records : List (ℤ × BaseRec)) (slots : ℤ)
    (st : ℕ × List (ℤ × Agg)) : ℕ × List (ℤ × Agg) :=
  let wins0 := team_ids.map fun tid => (tid, (lookupD base_records tid ⟨0, 0, 0⟩).wins)
  let losses0 := team_ids.map fun tid => (tid, (lookupD base_records tid ⟨0, 0, 0⟩).losses)
  let points0 := team_ids.map fun tid => (tid, (lookupD base_records tid ⟨0, 0, 0⟩).points)
  let played := mcPlayMatchups rolls ordered ⟨st.1, wins0, losses0, points0⟩
  let ranked := mcRank team_ids played.wins played.points
  (played.k, mcSeedUpdate st.2 slots ranked played.wins played.losses played.points)

/-- `sorted(seed_counts.items())`. -/
def sortedSeedCounts (sc : List (ℕ × ℕ)) : List (ℕ × ℕ) :=
  sc.mergeSort fun a b => decide (a.1 ≤ b.1)

/-- The median seed: the first seed whose cumulative frequency reaches 0.5. -/
noncomputable def medianSeedAux (iterF : ℝ) : List (ℕ × ℕ) → ℝ → Option ℕ
  | [], _ => none
  | (seed, count) :: rest, cumulative =>
    let c := cumulative + (count : ℝ) / iterF
    if c ≥ 1/2 then some seed else medianSeedAux iterF rest c

/-- The payload row built for one team from its final aggregates. -/
noncomputable def mcTeamRow (meta : TeamMeta) (a : Agg) (iterF : ℝ) (gr : ℕ) :
    MonteCarloTeamRow :=
  { team := meta
    average_wins := round3 (a.win_total / iterF)
    average_losses := round3 (a.loss_total / iterF)
    average_points := round2 (a.points_total / iterF)
    games_remaining := gr
    playoff_odds := (a.playoff_count : ℝ) / iterF
    top_seed_odds := (a.top_seed_count : ℝ) / iterF
    seed_distribution := (sortedSeedCounts a.seed_counts).map fun p => (p.1, (p.2 : ℝ) / iterF)
    best_seed := a.best_seed
    worst_seed := a.worst_seed
    median_seed := medianSeedAux iterF (sortedSeedCounts a.seed_counts) 0 }

/-- `_run_monte_carlo`.  The pseudo-random stream `rolls` stands for the
sequence of `rng.random()` draws of `random.Random(random_seed)`; the
iteration and per-week replay order of the code fixes which draw belongs to
which matchup. -/
noncomputable def runMonteCarlo (rolls : ℕ → ℝ) (matchups : List MatchupProjection)
    (teams : List (ℤ × TeamMeta)) (iterations playoff_slots : ℤ)
    (random_seed : Option ℤ) (base_records : List (ℤ × BaseRec))
    (future_games : List (ℤ × ℕ)) : Except String MonteCarloSummary :=
  if iterations ≤ 0 then .error "iterations must be positive when running Monte Carlo"
  else
    let slots := if playoff_slots ≤ 0 then 0 else playoff_slots
    let team_ids := teams.map (·.1)
    let ordered := mcWeekOrdered matchups
    let aggs0 : List (ℤ × Agg) := team_ids.map fun tid => (tid, {})
    let final := (List.range iterations.toNat).foldl
      (fun st _ => mcIteration rolls ordered team_ids base_records slots st) (0, aggs0)
    let iterF : ℝ := (iterations : ℝ)
    let payload := team_ids.filterMap fun tid =>
      match List.lookup tid teams, List.lookup tid final.2 with
      | some meta, some a => some (mcTeamRow meta a iterF (lookupD future_games tid 0))
      | _, _ => none
    let payload_sorted := payload.mergeSort fun a b => decide (b.playoff_odds ≤ a.playoff_odds)
    .ok { iterations := iterations
          playoff_slots := slots
          random_seed := random_seed
          teams := payload_sorted }

/-! ## Overlay store (`OverlayStore.load_overlay`) -/

/-- `scenario_id or BASELINE_SCENARIO_ID` (Python falsiness: `None` and the
empty string both fall back to the baseline id). -/
def scenarioKeyOf : Option String → String
  | none => BASELINE_SCENARIO_ID
  | some s => if s = "" then BASELINE_SCENARIO_ID else s

/-- `OverlayStore.load_overlay`.  The store function stands for the season
directory of parsed scenario files; the baseline id (or a missing/empty id)
yields the empty overlay without consulting the store, and a missing file
also yields the empty overlay. -/
def loadOverlay (store : ℤ → String → Option ScenarioOverlay) (season : ℤ)
    (scenario_id : Option String) : ScenarioOverlay :=
  match scenario_id with
  | none => ScenarioOverlay.empty season BASELINE_SCENARIO_ID
  | some sid =>
    if sid = "" then ScenarioOverlay.empty season BASELINE_SCENARIO_ID
    else if sid = BASELINE_SCENARIO_ID then ScenarioOverlay.empty season sid
    else
      match store season sid with
      | none => ScenarioOverlay.empty season sid
      | some ov => ov

/-! ## `build_dataset` -/

/-- One row of `schedule.csv` after `_load_schedule` coercion. -/
structure ScheduleRow where
  week : ℤ
  matchup_id : String
  home_team_id : ℤ
  away_team_id : ℤ

/-- The tabular inputs `build_dataset` reads through its loading helpers.
File parsing is the boundary: each field holds the already-normalized output
of the corresponding loader, before overlay/live enrichment is applied. -/
structure SimEnv where
  teams : List (ℤ × TeamMeta)
  schedule : List ScheduleRow
  projectionWeeks : List ℤ
  completedWeeks : List ℤ
  weekScores : ℤ → List LineupRow
  scoreboardRows : ℤ → List LineupRow
  weekProjection : ℤ → List LineupRow
  matchupResults : List ((ℤ × String) × MatchResult)
  scoreboardEntries : List ((ℤ × String) × LiveEntry)
  rosterTotals : List (ℤ × List (ℤ × ℝ))
  rolls : ℕ → ℝ

/-- `max(l)` of a nonempty integer list (`0` is never used: callers guard
nonemptiness). -/
def maxList : List ℤ → ℤ
  | [] => 0
  | x :: xs => xs.foldl max x

/-- `min(l)` of a nonempty integer list. -/
def minList : List ℤ → ℤ
  | [] => 0
  | x :: xs => xs.foldl min x

/-- `_default_start_week`: the first projection week after the last completed
week, else the earliest projection week. -/
def defaultStartWeek (projectionWeeks completedWeeks : List ℤ) : ℤ :=
  let pw := projectionWeeks.mergeSort fun a b => decide (a ≤ b)
  let cw := completedWeeks.mergeSort fun a b => decide (a ≤ b)
  match cw.getLast? with
  | none => pw.headD 0
  | some last =>
    match pw.find? fun w => decide (last < w) with
    | some w => w
    | none => pw.headD 0

/-- `_load_week_scores` after file reading: the scoreboard player table
replaces the CSV when it is nonempty, then completed-week overrides apply. -/
noncomputable def loadWeekScores (active : Option ScenarioOverlay) (env : SimEnv) (week : ℤ) :
    List LineupRow :=
  let sb := env.scoreboardRows week
  applyCompletedWeekOverrides active (if sb.isEmpty then env.weekScores week else sb) week

/-- `_load_week_projection` after file reading. -/
noncomputable def loadWeekProjection (active : Option ScenarioOverlay) (env : SimEnv)
    (week : ℤ) : List LineupRow :=
  applyProjectionOverrides active (env.weekProjection week) week

/-- `_load_matchup_results` after file reading: live enrichment, then
matchup-level overrides. -/
noncomputable def loadMatchupResults (active : Option ScenarioOverlay) (env : SimEnv) :
    List ((ℤ × String) × MatchResult) :=
  applyMatchupOverrides active
    (applyLiveScoreOverrides env.scoreboardEntries env.rosterTotals env.matchupResults)

/-- Append to a pre-initialized team-schedule association list. -/
def appendSched (l : List (ℤ × List ScheduleEntry)) (tid : ℤ) (e : ScheduleEntry) :
    List (ℤ × List ScheduleEntry) :=
  l.map fun p => if p.1 = tid then (p.1, p.2 ++ [e]) else p

/-- `defaultdict(list)` append keyed by week. -/
def appendWeekList {α : Type} (l : List (ℤ × List α)) (w : ℤ) (x : α) : List (ℤ × List α) :=
  if (List.lookup w l).isSome then
    l.map fun p => if p.1 = w then (p.1, p.2 ++ [x]) else p
  else l ++ [(w, [x])]

/-- The mutable state threaded through the two per-week loops of
`build_dataset`. -/
structure BuildState where
  matchupRows : List MatchupProjection
  actualByWeek : List (ℤ × List WeekMatchup)
  futureByWeek : List (ℤ × List MatchupProjection)
  teamSchedule : List (ℤ × List ScheduleEntry)
  tracker : List (ℤ × StandRec)

/-- The history-reconciliation loop (`for week in history_weeks`). -/
noncomputable def historyLoop (active : Option ScenarioOverlay) (env : SimEnv)
    (results : List ((ℤ × String) × MatchResult)) (history_weeks : List ℤ)
    (st0 : BuildState) : BuildState :=
  history_weeks.foldl
    (fun st week =>
      let scores := loadWeekScores active env week
      if scores.isEmpty then st
      else
        let team_actuals := summarizeTeamPoints env.teams scores
        (env.schedule.filter fun r => r.week == week).foldl
          (fun st row =>
            match List.lookup (week, row.matchup_id) results,
                List.lookup row.home_team_id team_actuals,
                List.lookup row.away_team_id team_actuals with
            | some rec, some hp, some ap =>
              let out := historyMatchup st.tracker week row.matchup_id
                row.home_team_id row.away_team_id rec hp ap
              { st with
                tracker := out.tracker
                teamSchedule := appendSched
                  (appendSched st.teamSchedule row.home_team_id out.homeEntry)
                  row.away_team_id out.awayEntry
                actualByWeek := appendWeekList st.actualByWeek week out.payload }
            | _, _, _ => st)
          st)
    st0

/-- The forward-projection loop (`for week in weeks_to_process`). -/
noncomputable def forwardLoop (active : Option ScenarioOverlay) (env : SimEnv) (sigma : ℝ)
    (weeks_to_process : List ℤ) (st0 : BuildState) : BuildState :=
  weeks_to_process.foldl
    (fun st week =>
      let projections := loadWeekProjection active env week
      if projections.isEmpty then st
      else
        let team_projections := summarizeTeamPoints env.teams projections
        (env.schedule.filter fun r => r.week == week).foldl
          (fun st row =>
            match List.lookup row.home_team_id team_projections,
                List.lookup row.away_team_id team_projections with
            | some hp, some ap =>
              let out := forwardMatchup st.tracker sigma week row.matchup_id
                row.home_team_id row.away_team_id hp ap
              { st with
                tracker := out.tracker
                matchupRows := st.matchupRows ++ [out.proj]
                futureByWeek := appendWeekList st.futureByWeek week out.proj
                teamSchedule := appendSched
                  (appendSched st.teamSchedule row.home_team_id out.homeEntry)
                  row.away_team_id out.awayEntry }
            | _, _ => st)
          st)
    st0

/-- The dataset dict before the optional `monte_carlo` key is inserted. -/
structure PreDataset where
  season : ℤ
  generated_at : String
  start_week : ℤ
  end_week : ℤ
  projection_sigma : ℝ
  teams : List TeamMeta
  team_schedule : List (ℤ × List ScheduleEntry)
  weeks : List WeekPayload
  standings : List StandingsRow
  sources : SourcesInfo
  completed_weeks : List ℤ
  scenario : ScenarioSummary

/-- The dataset object (the JSON document of one build). -/
structure Dataset where
  season : ℤ
  generated_at : String
  start_week : ℤ
  end_week : ℤ
  projection_sigma : ℝ
  teams : List TeamMeta
  team_schedule : List (ℤ × List ScheduleEntry)
  weeks : List WeekPayload
  standings : List StandingsRow
  sources : SourcesInfo
  completed_weeks : List ℤ
  scenario : ScenarioSummary
  monte_carlo : Option MonteCarloSummary := none

/-- Insert the optional `monte_carlo` key into the dataset dict. -/
def withMC (p : PreDataset) (mc : Option MonteCarloSummary) : Dataset :=
  { season := p.season
    generated_at := p.generated_at
    start_week := p.start_week
    end_week := p.end_week
    projection_sigma := p.projection_sigma
    teams := p.teams
    team_schedule := p.team_schedule
    weeks := p.weeks
    standings := p.standings
    sources := p.sources
    completed_weeks := p.completed_weeks
    scenario := p.scenario
    monte_carlo := mc }

/-- The scenario summary of the dataset (lines 970-988). -/
def scenarioSummaryOf (overlay : ScenarioOverlay) : ScenarioSummary :=
  let fallback := if overlay.metadata.scenario_id = BASELINE_SCENARIO_ID then "Baseline"
    else overlay.metadata.scenario_id
  { id := overlay.metadata.scenario_id
    label := match overlay.metadata.label with
      | some l => if l = "" then fallback else l
      | none => fallback
    season := overlay.metadata.season
    is_baseline := overlay.metadata.scenario_id = BASELINE_SCENARIO_ID
    overrides :=
      { completed_weeks := (overlay.completed_weeks.map (·.1)).mergeSort fun a b => decide (a ≤ b)
        projection_weeks := (overlay.projection_weeks.map (·.1)).mergeSort fun a b => decide (a ≤ b) }
    description := if strTruthy overlay.metadata.description then overlay.metadata.description else none
    updated_at := if strTruthy overlay.metadata.updated_at then overlay.metadata.updated_at else none }

/-- Everything `build_dataset` does up to (and excluding) the Monte Carlo
section: the guards, the two loops, and the dataset assembly.  Besides the
dataset dict it passes out the sorted matchup rows, the baseline records and
the per-team remaining-game counts that `_run_monte_carlo` consumes. -/
noncomputable def buildBase (overlay : ScenarioOverlay) (env : SimEnv) (season : ℤ)
    (start_week end_week : Option ℤ) (sigma : ℝ) (now : String) :
    Except String (PreDataset × List MatchupProjection × List (ℤ × BaseRec) × List (ℤ × ℕ)) :=
  let active : Option ScenarioOverlay :=
    if overlay.completed_weeks.isEmpty && overlay.projection_weeks.isEmpty then none
    else some overlay
  if env.teams.isEmpty then
    .error "No teams.csv found for this season; run fantasy espn normalize first."
  else if env.schedule.isEmpty then
    .error "No schedule.csv found for this season; run fantasy espn normalize first."
  else if env.projectionWeeks.isEmpty then
    .error "No projections found for this season; run fantasy projections baseline first."
  else
    let default_start := defaultStartWeek env.projectionWeeks env.completedWeeks
    -- `effective_start = start_week or default_start`: Python falsiness makes
    -- an explicit week 0 fall back to the default as well
    let effective_start := match start_week with
      | none => default_start
      | some s => if s = 0 then default_start else s
    let effective_end := match end_week with
      | none => maxList env.projectionWeeks
      | some e => if e = 0 then maxList env.projectionWeeks else e
    if effective_start > effective_end then .error "start_week must be <= end_week"
    else
      let weeks_to_process := env.projectionWeeks.filter fun wk =>
        decide (effective_start ≤ wk) && decide (wk ≤ effective_end)
      if weeks_to_process.isEmpty then
        .error "No projection files fall within the requested weeks."
      else
        let history_weeks := env.completedWeeks.filter fun wk => decide (wk < effective_start)
        let results := loadMatchupResults active env
        let init : BuildState :=
          { matchupRows := []
            actualByWeek := []
            futureByWeek := []
            teamSchedule := env.teams.map fun p => (p.1, [])
            tracker := env.teams.map fun p => (p.1, StandRec.zero) }
        let stH := historyLoop active env results history_weeks init
        let base_records : List (ℤ × BaseRec) :=
          stH.tracker.map fun p => (p.1, ⟨p.2.wins, p.2.losses, p.2.points⟩)
        let stF := forwardLoop active env sigma weeks_to_process stH
        let matchup_rows := stF.matchupRows.mergeSort fun a b =>
          decide (a.week < b.week) ||
            (decide (a.week = b.week) && decide (a.matchup_id ≤ b.matchup_id))
        let team_schedule := stF.teamSchedule.map fun p =>
          (p.1, p.2.mergeSort fun a b => decide (a.week ≤ b.week))
        let future_games : List (ℤ × ℕ) := team_schedule.map fun p =>
          (p.1, p.2.countP fun e => !e.is_actual)
        let standings0 := stF.tracker.filterMap fun p =>
          match List.lookup p.1 env.teams with
          | some meta => some (standingsRowOf meta p.2 (lookupD future_games p.1 0))
          | none => none  -- unreachable: tracker keys come from the team registry
        let standings := standings0.mergeSort fun a b =>
          decide (b.wins < a.wins) ||
            (decide (a.wins = b.wins) && decide (b.projected_points ≤ a.projected_points))
        let all_weeks := (dedupFirstAux (history_weeks ++ weeks_to_process) []).mergeSort
          fun a b => decide (a ≤ b)
        let weeks_payload := all_weeks.filterMap fun week =>
          match List.lookup week stF.actualByWeek with
          | some ms => some ({ week := week, matchups := ms } : WeekPayload)
          | none =>
            let future_dicts := ((List.lookup week stF.futureByWeek).getD []).map matchupToDict
            if future_dicts.isEmpty then none
            else some ({ week := week, matchups := future_dicts } : WeekPayload)
        let base : PreDataset :=
          { season := season
            generated_at := now
            start_week := minList weeks_to_process
            end_week := maxList weeks_to_process
            projection_sigma := sigma
            teams := env.teams.map (·.2)
            team_schedule := team_schedule
            weeks := weeks_payload
            standings := standings
            sources :=
              { projections_weeks := weeks_to_process
                completed_weeks := history_weeks
                scenario_id := overlay.metadata.scenario_id }
            completed_weeks := history_weeks
            scenario := scenarioSummaryOf overlay }
        .ok (base, matchup_rows, base_records, future_games)

/-- `build_dataset` given the loaded overlay (everything after
`load_overlay`): build the base dataset, then attach the Monte Carlo section
when `sim_iterations > 0`. -/
noncomputable def buildFromOverlay (overlay : ScenarioOverlay) (env : SimEnv) (season : ℤ)
    (start_week end_week : Option ℤ) (sigma : ℝ) (sim_iterations playoff_slots : ℤ)
    (random_seed : Option ℤ) (now : String) : Except String Dataset :=
  match buildBase overlay env season start_week end_week sigma now with
  | .error e => .error e
  | .ok (base, matchup_rows, base_records, future_games) =>
    if sim_iterations > 0 then
      match runMonteCarlo env.rolls matchup_rows env.teams sim_iterations playoff_slots
          random_seed base_records future_games with
      | .error e => .error e
      | .ok mc => .ok (withMC base (some mc))
    else .ok (withMC base none)

/-- `RestOfSeasonSimulator.build_dataset`: resolve the scenario key
(`scenario_id or BASELINE_SCENARIO_ID`), load the overlay, then build. -/
noncomputable def buildDataset (store : ℤ → String → Option ScenarioOverlay) (env : SimEnv)
    (season : ℤ) (start_week end_week : Option ℤ) (sigma : ℝ)
    (sim_iterations playoff_slots : ℤ) (random_seed : Option ℤ)
    (scenario_id : Option String) (now : String) : Except String Dataset :=
  buildFromOverlay (loadOverlay store season (some (scenarioKeyOf scenario_id))) env season
    start_week end_week sigma sim_iterations playoff_slots random_seed now

/-! ## Concrete fixtures used by witnesses and counterexamples -/

/-- A minimal team registry entry. -/
def tmJunk (t : ℤ) : TeamMeta :=
  { team_id := t, name := "Team", abbrev_ := none, owners := [], logo_url := none }

/-- A minimal `TeamProjection`. -/
noncomputable def tpJunk (t : ℤ) : TeamProjection :=
  { team := tmJunk t, projected_points := 0, starters := [], bench := [] }

/-- A `TeamProjection` with a given point total. -/
noncomputable def tpPts (t : ℤ) (v : ℝ) : TeamProjection :=
  { team := tmJunk t, projected_points := v, starters := [], bench := [] }

/-- A base table row for team `t` worth `v` points. -/
noncomputable def baseRow (t : ℤ) (v : ℝ) : LineupRow :=
  { team_id := some t, espn_player_id := none, player_name := "Base Player"
    lineup_slot := "QB", espn_position := "QB", value := v, counts_for_score := true }

/-- An overlay entry for the C1 witness. -/
noncomputable def rawW1 : RawOverlayEntry :=
  { player_name := some "Override QB", score_total := some 31.5, counts_for_score := some true }

/-- A scenario overriding team 1 of completed week 1 (C1 witness). -/
noncomputable def ovC1 : ScenarioOverlay :=
  { metadata := { scenario_id := "what-if", season := 2025 }
    completed_weeks := [(1, { week := 1
                              team_lineups := [(1, { team_id := 1, entries := [rawW1] })] })] }

/-- The base table for the C1 witness: one row each for teams 1 and 2. -/
noncomputable def dfC1 : List LineupRow := [baseRow 1 10, baseRow 2 12]

/-- An overlay lineup entry that omits `counts_for_score` (C3). -/
noncomputable def rawC3 : RawOverlayEntry := { projected_points := some 12 }

/-- A scenario whose projection week 1 overrides team 7 with `rawC3` (C3). -/
noncomputable def ovC3 : ScenarioOverlay :=
  { metadata := { scenario_id := "what-if", season := 2025 }
    projection_weeks := [(1, { week := 1
                               team_lineups := [(7, { team_id := 7, entries := [rawC3] })] })] }

/-- A stored matchup record with a 10-0 score and no winner flag (C2). -/
noncomputable def recC2 : MatchResult :=
  { home_team_id := 1, away_team_id := 2, home_points := some 10, away_points := some 0 }

/-- A live scoreboard entry reporting that same matchup as FINAL (C2): the
scoreboard status is stored even though the record has no winner flag. -/
noncomputable def liveC2 : LiveEntry :=
  { status := some "final", home_team_id := some 1, away_team_id := some 2
    home_points := some 10, away_points := some 0 }

/-- The C2 counterexample record after live enrichment. -/
noncomputable def enrichedC2 : MatchResult :=
  applyLiveToPayload [((1, "101"), liveC2)] [] 1 "101" recC2

/-- A fresh two-team standings tracker. -/
def trC2 : List (ℤ × StandRec) := [(1, StandRec.zero), (2, StandRec.zero)]

/-- A completed matchup record with an explicit HOME winner flag and no live
status (C2 witness). -/
noncomputable def recC2w : MatchResult :=
  { home_team_id := 1, away_team_id := 2, home_points := some 120, away_points := some 110
    winner := some "HOME" }

/-- Two starting rows worth 1.004 points each (C4): per-entry rounding gives
1.0 + 1.0 while the total rounds 2.008 to 2.01. -/
noncomputable def tableC4 : List LineupRow :=
  [ { team_id := some 1, espn_player_id := some 11, player_name := "A"
      lineup_slot := "QB", espn_position := "QB", value := 1.004, counts_for_score := true }
  , { team_id := some 1, espn_player_id := some 12, player_name := "B"
      lineup_slot := "RB", espn_position := "RB", value := 1.004, counts_for_score := true } ]

/-- The one-team registry for C4. -/
def teamsC4 : List (ℤ × TeamMeta) := [(1, tmJunk 1)]

/-- The C8 environment: two teams, one scheduled week, one projection week,
no completed weeks. -/
noncomputable def envC8 : SimEnv :=
  { teams := [(1, tmJunk 1), (2, tmJunk 2)]
    schedule := [{ week := 1, matchup_id := "101", home_team_id := 1, away_team_id := 2 }]
    projectionWeeks := [1]
    completedWeeks := []
    weekScores := fun _ => []
    scoreboardRows := fun _ => []
    weekProjection := fun _ => []
    matchupResults := []
    scoreboardEntries := []
    rosterTotals := []
    rolls := fun _ => 0 }

/-- An empty overlay store. -/
def storeEmpty : ℤ → String → Option ScenarioOverlay := fun _ _ => none

/-- A single forward matchup for the C10 witness. -/
noncomputable def mC10 : MatchupProjection :=
  { week := 2, matchup_id := "201", home := tpPts 1 100, away := tpPts 2 90
    home_win_probability := 0.6, away_win_probability := 0.4 }

/-- The two-team registry for C10. -/
def teamsC10 : List (ℤ × TeamMeta) := [(1, tmJunk 1), (2, tmJunk 2)]

/-! ## Proof development -/

theorem rowsOfTeam_append (t : ℤ) (a b : List LineupRow) :
    rowsOfTeam t (a ++ b) = rowsOfTeam t a ++ rowsOfTeam t b := by
  simp [rowsOfTeam, List.filter_append]

theorem mem_overrideTeamIds (t : ℤ) (rows : List LineupRow) :
    t ∈ overrideTeamIds rows ↔ rowsOfTeam t rows ≠ [] := by
  simp only [overrideTeamIds, List.mem_filterMap, rowsOfTeam, ne_eq,
    List.filter_eq_nil_iff, not_forall]
  constructor
  · rintro ⟨r, hr, ht⟩
    exact ⟨r, hr, by simp [ht]⟩
  · rintro ⟨r, hr, ht⟩
    exact ⟨r, hr, by simpa using ht⟩

theorem rowsOfTeam_filter_keep_of_mem (t : ℤ) (ids : List ℤ) (l : List LineupRow)
    (h : t ∈ ids) :
    rowsOfTeam t (l.filter (keepBaseRow ids)) = [] := by
  rw [rowsOfTeam, List.filter_eq_nil_iff]
  intro r hr
  have hk : keepBaseRow ids r = true := List.of_mem_filter hr
  intro hteam
  have ht : r.team_id = some t := by simpa using hteam
  simp [keepBaseRow, ht, h] at hk

theorem rowsOfTeam_filter_keep_of_not_mem (t : ℤ) (ids : List ℤ) (l : List LineupRow)
    (h : t ∉ ids) :
    rowsOfTeam t (l.filter (keepBaseRow ids)) = rowsOfTeam t l := by
  rw [rowsOfTeam, List.filter_filter, rowsOfTeam]
  apply List.filter_congr
  intro r _
  by_cases hm : r.team_id = some t
  · simp [keepBaseRow, hm, h]
  · simp [hm]

theorem rowsOfTeam_merge_of_nil (t : ℤ) (df rows : List LineupRow)
    (h : rowsOfTeam t rows = []) :
    rowsOfTeam t (mergeOverrideRows df rows) = rowsOfTeam t df := by
  unfold mergeOverrideRows
  by_cases hrows : rows.isEmpty
  · simp [hrows]
  · simp only [hrows, Bool.false_eq_true, if_false]
    by_cases hdf : df.isEmpty
    · have hdf' : df = [] := by simpa [List.isEmpty_iff] using hdf
      rw [if_pos hdf, h, hdf']
      simp [rowsOfTeam]
    · simp only [hdf, Bool.false_eq_true, if_false]
      rw [rowsOfTeam_append, h, List.append_nil]
      apply rowsOfTeam_filter_keep_of_not_mem
      rw [mem_overrideTeamIds]
      simpa using h

theorem rowsOfTeam_merge_of_ne (t : ℤ) (df rows : List LineupRow)
    (h : rowsOfTeam t rows ≠ []) :
    rowsOfTeam t (mergeOverrideRows df rows) = rowsOfTeam t rows := by
  unfold mergeOverrideRows
  have hrows : rows.isEmpty = false := by
    rcases rows with _ | _
    · simp [rowsOfTeam] at h
    · simp
  rw [hrows]
  simp only [Bool.false_eq_true, if_false]
  by_cases hdf : df.isEmpty
  · simp [hdf]
  · simp only [hdf, Bool.false_eq_true, if_false]
    rw [rowsOfTeam_append, rowsOfTeam_filter_keep_of_mem, List.nil_append]
    exact (mem_overrideTeamIds t rows).mpr h

theorem round_eval (x : ℝ) (m : ℤ) (h1 : (m : ℝ) ≤ x + 1/2) (h2 : x + 1/2 < (m : ℝ) + 1) :
    round x = m := by
  rw [round_eq]
  exact Int.floor_eq_iff.mpr ⟨h1, h2⟩

theorem round2_eval (x : ℝ) (m : ℤ) (h1 : (m : ℝ) ≤ x * 100 + 1/2)
    (h2 : x * 100 + 1/2 < (m : ℝ) + 1) : round2 x = (m : ℝ) / 100 := by
  rw [round2, round_eval (x * 100) m h1 h2]

theorem sum_map_sortByPointsDesc (l : List LineupEntry) (f : LineupEntry → ℝ) :
    ((sortByPointsDesc l).map f).sum = (l.map f).sum :=
  List.Perm.sum_eq ((List.mergeSort_perm l _).map f)

theorem mem_mergeOverrideRows_of_mem (df rows : List LineupRow) (r : LineupRow)
    (h : r ∈ rows) : r ∈ mergeOverrideRows df rows := by
  unfold mergeOverrideRows
  have hne : rows.isEmpty = false := by
    cases rows with
    | nil => simp at h
    | cons a l => simp
  rw [hne]
  simp only [Bool.false_eq_true, if_false]
  by_cases hdf : df.isEmpty
  · simp [hdf, h]
  · simp [hdf, h]

theorem mem_asRows_completed (wk : CompletedWeekOverride) (p : ℤ × TeamLineupOverride)
    (hp : p ∈ wk.team_lineups) (raw : RawOverlayEntry) (hr : raw ∈ p.2.entries) :
    normalizeOverlayEntry p.2.team_id .scoreTotal raw ∈ wk.asRows := by
  unfold CompletedWeekOverride.asRows
  exact List.mem_flatMap.mpr ⟨p, hp, List.mem_map_of_mem _ hr⟩

theorem mem_asRows_projection (wk : ProjectionWeekOverride) (p : ℤ × TeamLineupOverride)
    (hp : p ∈ wk.team_lineups) (raw : RawOverlayEntry) (hr : raw ∈ p.2.entries) :
    normalizeOverlayEntry p.2.team_id .projectedPoints raw ∈ wk.asRows := by
  unfold ProjectionWeekOverride.asRows
  exact List.mem_flatMap.mpr ⟨p, hp, List.mem_map_of_mem _ hr⟩

theorem lookup_summarizeTeamPoints (teams : List (ℤ × TeamMeta)) (table : List LineupRow)
    (tid : ℤ) (proj : TeamProjection)
    (h : List.lookup tid (summarizeTeamPoints teams table) = some proj) :
    ∃ meta, List.lookup tid teams = some meta ∧ proj = summarizeOneTeam meta table tid := by
  unfold summarizeTeamPoints at h
  generalize uniqueTeamIds table = l at h
  revert h
  induction l with
  | nil => intro h; simp at h
  | cons x xs ih =>
    intro h
    simp only [List.filterMap_cons] at h
    cases hx : List.lookup x teams with
    | none =>
      rw [hx] at h
      exact ih h
    | some meta =>
      rw [hx] at h
      by_cases he : tid = x
      · subst he
        simp only [List.lookup, beq_self_eq_true] at h
        exact ⟨meta, hx, (Option.some_inj.mp h).symm⟩
      · have hbe : (tid == x) = false := by simpa using he
        simp only [List.lookup, hbe] at h
        exact ih h

/-- C1: applying a completed-week (resp. projection-week) overlay override
replaces all rows of every team that has overlay rows for that week with
exactly that team's overlay rows, while every team without overlay rows for
that week (including teams whose overlay rows were removed) keeps exactly its
base rows. -/
theorem overlay_merge_full_replacement (ov : Option ScenarioOverlay)
    (df : List LineupRow) (week t : ℤ) :
    (completedOverlayRows ov week t ≠ [] →
      rowsOfTeam t (applyCompletedWeekOverrides ov df week) = completedOverlayRows ov week t)
  ∧ (completedOverlayRows ov week t = [] →
      rowsOfTeam t (applyCompletedWeekOverrides ov df week) = rowsOfTeam t df)
  ∧ (projectionOverlayRows ov week t ≠ [] →
      rowsOfTeam t (applyProjectionOverrides ov df week) = projectionOverlayRows ov week t)
  ∧ (projectionOverlayRows ov week t = [] →
      rowsOfTeam t (applyProjectionOverrides ov df week) = rowsOfTeam t df) := by
  refine ⟨?_, ?_, ?_, ?_⟩ <;> intro h
  · cases ov with
    | none => simp [completedOverlayRows] at h
    | some o =>
      cases hwk : o.getCompletedWeek week with
      | none => simp [completedOverlayRows, hwk] at h
      | some wk =>
        simp only [completedOverlayRows, hwk] at h ⊢
        simp only [applyCompletedWeekOverrides, hwk]
        exact rowsOfTeam_merge_of_ne t df wk.asRows h
  · cases ov with
    | none => simp [applyCompletedWeekOverrides]
    | some o =>
      cases hwk : o.getCompletedWeek week with
      | none => simp [applyCompletedWeekOverrides, hwk]
      | some wk =>
        simp only [completedOverlayRows, hwk] at h
        simp only [applyCompletedWeekOverrides, hwk]
        exact rowsOfTeam_merge_of_nil t df wk.asRows h
  · cases ov with
    | none => simp [projectionOverlayRows] at h
    | some o =>
      cases hwk : o.getProjectionWeek week with
      | none => simp [projectionOverlayRows, hwk] at h
      | some wk =>
        simp only [projectionOverlayRows, hwk] at h ⊢
        simp only [applyProjectionOverrides, hwk]
        exact rowsOfTeam_merge_of_ne t df wk.asRows h
  · cases ov with
    | none => simp [applyProjectionOverrides]
    | some o =>
      cases hwk : o.getProjectionWeek week with
      | none => simp [applyProjectionOverrides, hwk]
      | some wk =>
        simp only [projectionOverlayRows, hwk] at h
        simp only [applyProjectionOverrides, hwk]
        exact rowsOfTeam_merge_of_nil t df wk.asRows h

/-- Witness for C1 at a concrete scenario: the overlay replaces team 1's rows
and leaves team 2's base rows untouched. -/
theorem overlay_merge_full_replacement_witness :
    (completedOverlayRows (some ovC1) 1 1 ≠ [] ∧
      rowsOfTeam 1 (applyCompletedWeekOverrides (some ovC1) dfC1 1)
        = completedOverlayRows (some ovC1) 1 1)
  ∧ (completedOverlayRows (some ovC1) 1 2 = [] ∧
      rowsOfTeam 2 (applyCompletedWeekOverrides (some ovC1) dfC1 1) = rowsOfTeam 2 dfC1) := by
  have h1 : completedOverlayRows (some ovC1) 1 1 ≠ [] := by
    rw [show completedOverlayRows (some ovC1) 1 1
      = [normalizeOverlayEntry 1 .scoreTotal rawW1] from rfl]
    exact List.cons_ne_nil _ _
  have h2 : completedOverlayRows (some ovC1) 1 2 = [] := rfl
  exact ⟨⟨h1, (overlay_merge_full_replacement (some ovC1) dfC1 1 1).1 h1⟩,
    ⟨h2, (overlay_merge_full_replacement (some ovC1) dfC1 1 2).2.1 h2⟩⟩

/-- Counterexample for C3: an overlay row that omits `counts_for_score`
merges with `counts_for_score = true` in a projection-week override, not
`false` as claimed. -/
theorem projection_overlay_counts_default_cex :
    rawC3.counts_for_score = none
  ∧ (applyProjectionOverrides (some ovC3) [] 1).map (·.counts_for_score) = [true]
  ∧ (applyProjectionOverrides (some ovC3) [] 1).map (·.counts_for_score) ≠ [false] := by
  refine ⟨rfl, rfl, ?_⟩
  rw [show (applyProjectionOverrides (some ovC3) [] 1).map (·.counts_for_score)
    = [true] from rfl]
  simp

/-- C3 amended: an overlay row that omits `counts_for_score` is normalized
with `counts_for_score = true` for BOTH completed-week and projection-week
overrides, and the normalized row reaches the merged table unchanged. -/
theorem overlay_counts_default_true (tid : ℤ) (raw : RawOverlayEntry)
    (h : raw.counts_for_score = none) :
    (normalizeOverlayEntry tid .scoreTotal raw).counts_for_score = true
  ∧ (normalizeOverlayEntry tid .projectedPoints raw).counts_for_score = true
  ∧ (∀ (wk : CompletedWeekOverride) (df : List LineupRow) (p : ℤ × TeamLineupOverride),
      p ∈ wk.team_lineups → raw ∈ p.2.entries →
      normalizeOverlayEntry p.2.team_id .scoreTotal raw ∈ mergeOverrideRows df wk.asRows)
  ∧ (∀ (wk : ProjectionWeekOverride) (df : List LineupRow) (p : ℤ × TeamLineupOverride),
      p ∈ wk.team_lineups → raw ∈ p.2.entries →
      normalizeOverlayEntry p.2.team_id .projectedPoints raw ∈ mergeOverrideRows df wk.asRows) := by
  refine ⟨by simp [normalizeOverlayEntry, h], by simp [normalizeOverlayEntry, h], ?_, ?_⟩
  · intro wk df p hp hr
    exact mem_mergeOverrideRows_of_mem df wk.asRows _ (mem_asRows_completed wk p hp raw hr)
  · intro wk df p hp hr
    exact mem_mergeOverrideRows_of_mem df wk.asRows _ (mem_asRows_projection wk p hp raw hr)

/-- Witness for the amended C3 at the concrete entry `rawC3`. -/
theorem overlay_counts_default_true_witness :
    rawC3.counts_for_score = none
  ∧ (normalizeOverlayEntry 7 .projectedPoints rawC3).counts_for_score = true :=
  ⟨rfl, (overlay_counts_default_true 7 rawC3 rfl).2.1⟩

/-- C4 amended: for every `TeamProjection` produced by `_summarize_team_points`,
`projected_points` is the 2-decimal rounding of the sum of the raw points of
the counting rows; every starter has `counts_for_score = true` and no bench
entry does; and the sum of the starters' stored (per-entry rounded) points is
the sum of the individually rounded row values, which can differ from
`projected_points` by rounding. -/
theorem summarize_partition_invariant (teams : List (ℤ × TeamMeta)) (table : List LineupRow)
    (tid : ℤ) (proj : TeamProjection)
    (h : List.lookup tid (summarizeTeamPoints teams table) = some proj) :
    proj.projected_points
      = round2 (((rowsOfTeam tid table).filter (·.counts_for_score)).map (·.value)).sum
  ∧ (∀ e ∈ proj.starters, e.counts_for_score = true)
  ∧ (∀ e ∈ proj.bench, e.counts_for_score = false)
  ∧ (proj.starters.map (·.projected_points)).sum
      = (((rowsOfTeam tid table).filter (·.counts_for_score)).map fun r => round2 r.value).sum := by
  obtain ⟨meta, hm, hp⟩ := lookup_summarizeTeamPoints teams table tid proj h
  subst hp
  refine ⟨rfl, ?_, ?_, ?_⟩
  · intro e he
    simp only [summarizeOneTeam, sortByPointsDesc, List.mem_mergeSort, List.mem_map] at he
    obtain ⟨r, hr, rfl⟩ := he
    have := List.of_mem_filter hr
    simpa [rowToEntry] using this
  · intro e he
    simp only [summarizeOneTeam, sortByPointsDesc, List.mem_mergeSort, List.mem_map] at he
    obtain ⟨r, hr, rfl⟩ := he
    have := List.of_mem_filter hr
    simp only [rowToEntry]
    simpa using this
  · show ((sortByPointsDesc _).map _).sum = _
    rw [sum_map_sortByPointsDesc, List.map_map]
    rfl

/-- Witness for the amended C4 at the concrete two-row table. -/
theorem summarize_partition_invariant_witness :
    List.lookup 1 (summarizeTeamPoints teamsC4 tableC4)
      = some (summarizeOneTeam (tmJunk 1) tableC4 1)
  ∧ (summarizeOneTeam (tmJunk 1) tableC4 1).projected_points
      = round2 (((rowsOfTeam 1 tableC4).filter (·.counts_for_score)).map (·.value)).sum
  ∧ (∀ e ∈ (summarizeOneTeam (tmJunk 1) tableC4 1).starters, e.counts_for_score = true) := by
  have h : List.lookup 1 (summarizeTeamPoints teamsC4 tableC4)
      = some (summarizeOneTeam (tmJunk 1) tableC4 1) := rfl
  exact ⟨h, (summarize_partition_invariant teamsC4 tableC4 1 _ h).1,
    (summarize_partition_invariant teamsC4 tableC4 1 _ h).2.1⟩

/-- Counterexample for C4: with two counting rows worth 1.004 each, the team
total is `round2 2.008 = 2.01` while the starters' stored points sum to
`1.0 + 1.0 = 2`, so `projected_points` differs from the sum of the starters'
`projected_points`. -/
theorem summarize_rounding_cex :
    List.lookup 1 (summarizeTeamPoints teamsC4 tableC4)
      = some (summarizeOneTeam (tmJunk 1) tableC4 1)
  ∧ (summarizeOneTeam (tmJunk 1) tableC4 1).projected_points = 2.01
  ∧ ((summarizeOneTeam (tmJunk 1) tableC4 1).starters.map (·.projected_points)).sum = 2
  ∧ (2.01 : ℝ) ≠ 2 := by
  refine ⟨rfl, ?_, ?_, by norm_num⟩
  · show round2 (((rowsOfTeam 1 tableC4).filter (·.counts_for_score)).map (·.value)).sum = 2.01
    rw [show (((rowsOfTeam 1 tableC4).filter (·.counts_for_score)).map (·.value)).sum
      = (1.004 : ℝ) + (1.004 + 0) from rfl]
    rw [show ((1.004 : ℝ) + (1.004 + 0)) = 2.008 by norm_num]
    rw [round2_eval 2.008 201 (by norm_num) (by norm_num)]
    norm_num
  · show ((sortByPointsDesc _).map _).sum = 2
    rw [sum_map_sortByPointsDesc, List.map_map]
    rw [show (((rowsOfTeam 1 tableC4).filter (·.counts_for_score)).map
      ((fun e => e.projected_points) ∘ rowToEntry)).sum
      = round2 1.004 + (round2 1.004 + 0) from rfl]
    rw [round2_eval 1.004 100 (by norm_num) (by norm_num)]
    norm_num

/-- C6: with `sigma <= 0` the win-probability estimate is deterministic and
exact: `(1, 0)` for a strictly positive margin, `(0, 1)` for a strictly
negative one, and `(0.5, 0.5)` for an exact zero margin. -/
theorem win_probability_degenerate_sigma (home away sigma : ℝ) (hs : sigma ≤ 0) :
    (home - away > 0 → estimateWinProbabilities home away sigma = (1, 0))
  ∧ (home - away < 0 → estimateWinProbabilities home away sigma = (0, 1))
  ∧ (home - away = 0 → estimateWinProbabilities home away sigma = (1/2, 1/2)) := by
  simp only [estimateWinProbabilities]
  rw [if_pos hs]
  refine ⟨fun h => by rw [if_pos h], fun h => ?_, fun h => ?_⟩
  · rw [if_neg (by linarith), if_pos h]
  · rw [if_neg (by linarith), if_neg (by linarith)]

/-- Witness for C6 at `sigma = 0`, margin `3 - 1 > 0`. -/
theorem win_probability_degenerate_sigma_witness :
    (0 : ℝ) ≤ 0 ∧ estimateWinProbabilities 3 1 0 = (1, 0) :=
  ⟨le_refl 0, (win_probability_degenerate_sigma 3 1 0 (le_refl 0)).1 (by norm_num)⟩

/-- C7: building with the reserved baseline scenario id produces the very
same dataset as omitting the scenario id, for any generation timestamp, and
neither call consults the overlay store (the two calls may use different
stores); both resolve to the empty overlay. -/
theorem baseline_scenario_transparent (store store' : ℤ → String → Option ScenarioOverlay)
    (env : SimEnv) (season : ℤ) (sw ew : Option ℤ) (sigma : ℝ) (it ps : ℤ)
    (rs : Option ℤ) (now : String) :
    buildDataset store env season sw ew sigma it ps rs none now
      = buildDataset store' env season sw ew sigma it ps rs (some BASELINE_SCENARIO_ID) now
  ∧ loadOverlay store season (some (scenarioKeyOf none))
      = ScenarioOverlay.empty season BASELINE_SCENARIO_ID
  ∧ loadOverlay store' season (some (scenarioKeyOf (some BASELINE_SCENARIO_ID)))
      = ScenarioOverlay.empty season BASELINE_SCENARIO_ID := by
  have hk1 : scenarioKeyOf none = BASELINE_SCENARIO_ID := rfl
  have hk2 : scenarioKeyOf (some BASELINE_SCENARIO_ID) = BASELINE_SCENARIO_ID := rfl
  have hl : ∀ st : ℤ → String → Option ScenarioOverlay,
      loadOverlay st season (some BASELINE_SCENARIO_ID)
        = ScenarioOverlay.empty season BASELINE_SCENARIO_ID := fun _ => rfl
  refine ⟨?_, by rw [hk1]; exact hl store, by rw [hk2]; exact hl store'⟩
  unfold buildDataset
  rw [hk1, hk2, hl store, hl store']

/-- Counterexample for C8: a build with a negative Monte Carlo iteration
count (-1) is not rejected; it succeeds and merely omits the `monte_carlo`
section (the returned value is `ok` and its `monte_carlo` field is `none`). -/
theorem negative_iterations_not_rejected_cex :
    (buildDataset storeEmpty envC8 2025 none none 18 (-1) 4 none none "t").toOption.map
      Dataset.monte_carlo = some none := by
  have h1 : defaultStartWeek envC8.projectionWeeks envC8.completedWeeks = 1 := by
    simp [defaultStartWeek, envC8]
  simp only [buildDataset, buildFromOverlay, buildBase]
  rw [h1]
  rfl

/-- C8 amended: a dataset built with any non-positive iteration count (zero
or negative) omits the `monte_carlo` section and is not rejected; the
internal `_run_monte_carlo` guard rejects non-positive counts with a
`ValueError`, but `build_dataset` only invokes it for positive counts, so
negative counts are treated as "not requested" rather than rejected. -/
theorem monte_carlo_iterations_gate (store : ℤ → String → Option ScenarioOverlay)
    (env : SimEnv) (season : ℤ) (sw ew : Option ℤ) (sigma : ℝ) (it ps : ℤ)
    (rs : Option ℤ) (sid : Option String) (now : String) (hit : it ≤ 0) :
    (∀ d, buildDataset store env season sw ew sigma it ps rs sid now = .ok d →
      d.monte_carlo = none)
  ∧ (∀ (rolls : ℕ → ℝ) (matchups : List MatchupProjection)
      (teams : List (ℤ × TeamMeta)) (slots : ℤ) (rseed : Option ℤ)
      (base : List (ℤ × BaseRec)) (future : List (ℤ × ℕ)),
      runMonteCarlo rolls matchups teams it slots rseed base future
        = .error "iterations must be positive when running Monte Carlo") := by
  constructor
  · intro d hd
    have hng : ¬ (it > 0) := by omega
    unfold buildDataset buildFromOverlay at hd
    cases hb : buildBase (loadOverlay store season (some (scenarioKeyOf sid))) env season
        sw ew sigma now with
    | error e =>
      simp only [hb] at hd
      exact Except.noConfusion hd
    | ok tup =>
      obtain ⟨base, mr, br, fg⟩ := tup
      simp only [hb] at hd
      rw [if_neg hng] at hd
      injection hd with h
      subst h
      rfl
  · intro rolls matchups teams slots rseed base future
    unfold runMonteCarlo
    rw [if_pos hit]

/-- Witness for the amended C8: a concrete build with iteration count -1
succeeds with no Monte Carlo section. -/
theorem monte_carlo_iterations_gate_witness :
    ((-1 : ℤ) ≤ 0)
  ∧ (buildDataset storeEmpty envC8 2025 none none 18 (-1) 4 none none "wit").toOption.map
      Dataset.monte_carlo = some none := by
  refine ⟨by norm_num, ?_⟩
  have hok : (buildDataset storeEmpty envC8 2025 none none 18 (-1) 4 none none
      "wit").toOption.isSome = true := by
    have h1 : defaultStartWeek envC8.projectionWeeks envC8.completedWeeks = 1 := by
      simp [defaultStartWeek, envC8]
    simp only [buildDataset, buildFromOverlay, buildBase]
    rw [h1]
    rfl
  cases hb : buildDataset storeEmpty envC8 2025 none none 18 (-1) 4 none none "wit" with
  | error e => rw [hb] at hok; simp [Except.toOption] at hok
  | ok d =>
    have hmc := (monte_carlo_iterations_gate storeEmpty envC8 2025 none none 18 (-1) 4 none
      none "wit" (by norm_num)).1 d hb
    simp [Except.toOption, hmc]

theorem updStand_cons_self (k : ℤ) (v : StandRec) (tr : List (ℤ × StandRec))
    (f : StandRec → StandRec) :
    updStand ((k, v) :: tr) k f = (k, f v) :: updStand tr k f := by
  simp [updStand]

theorem updStand_cons_ne (k k' : ℤ) (v : StandRec) (tr : List (ℤ × StandRec))
    (f : StandRec → StandRec) (h : k ≠ k') :
    updStand ((k, v) :: tr) k' f = (k, v) :: updStand tr k' f := by
  simp [updStand, h]

theorem lookup_updStand_self (tr : List (ℤ × StandRec)) (tid : ℤ) (f : StandRec → StandRec) :
    List.lookup tid (updStand tr tid f) = (List.lookup tid tr).map f := by
  induction tr with
  | nil => rfl
  | cons p tr ih =>
    rcases p with ⟨k, v⟩
    by_cases h : k = tid
    · subst h
      rw [updStand_cons_self]
      simp [List.lookup]
    · have hbe : (tid == k) = false := by simpa using Ne.symm h
      rw [updStand_cons_ne k tid v tr f h]
      simp only [List.lookup, hbe]
      exact ih

theorem lookup_updStand_ne (tr : List (ℤ × StandRec)) (tid tid' : ℤ) (f : StandRec → StandRec)
    (h : tid' ≠ tid) :
    List.lookup tid' (updStand tr tid f) = List.lookup tid' tr := by
  induction tr with
  | nil => rfl
  | cons p tr ih =>
    rcases p with ⟨k, v⟩
    by_cases hk : k = tid
    · subst hk
      have hbe : (tid' == k) = false := by simpa using h
      rw [updStand_cons_self]
      simp only [List.lookup, hbe]
      exact ih
    · rw [updStand_cons_ne k tid v tr f hk]
      simp only [List.lookup]
      cases hbe : (tid' == k) with
      | true => rfl
      | false => exact ih

/-- C9: for a projected matchup whose home/away win probabilities differ by
less than 1e-6, both teams' tie counts gain a whole 1.0 on top of the
fractional win/loss and full point contributions; and the per-game average in
the standings divides by `wins + losses` only, so the tie counter never
enters the divisor. -/
theorem projected_tie_handling (tracker : List (ℤ × StandRec)) (sigma : ℝ) (week : ℤ)
    (mid : String) (hId aId : ℤ) (hP aP : TeamProjection) (rh ra : StandRec)
    (hne : hId ≠ aId)
    (hlh : List.lookup hId tracker = some rh)
    (hla : List.lookup aId tracker = some ra)
    (htie : |(estimateWinProbabilities hP.projected_points aP.projected_points sigma).1
        - (estimateWinProbabilities hP.projected_points aP.projected_points sigma).2| < 1e-6) :
    (List.lookup hId (forwardMatchup tracker sigma week mid hId aId hP aP).tracker
      = some ⟨rh.wins + (estimateWinProbabilities hP.projected_points aP.projected_points sigma).1,
          rh.losses + (estimateWinProbabilities hP.projected_points aP.projected_points sigma).2,
          rh.ties + 1,
          rh.points + hP.projected_points⟩)
  ∧ (List.lookup aId (forwardMatchup tracker sigma week mid hId aId hP aP).tracker
      = some ⟨ra.wins + (estimateWinProbabilities hP.projected_points aP.projected_points sigma).2,
          ra.losses + (estimateWinProbabilities hP.projected_points aP.projected_points sigma).1,
          ra.ties + 1,
          ra.points + aP.projected_points⟩)
  ∧ (∀ (meta : TeamMeta) (r : StandRec) (gr : ℕ),
      (standingsRowOf meta r gr).average_projected_points
        = round2 (if r.wins + r.losses = 0 then 0 else r.points / (r.wins + r.losses)))
  ∧ (∀ (meta : TeamMeta) (r : StandRec) (gr : ℕ) (t' : ℝ),
      (standingsRowOf meta { r with ties := t' } gr).average_projected_points
        = (standingsRowOf meta r gr).average_projected_points) := by
  refine ⟨?_, ?_, fun meta r gr => rfl, fun meta r gr t' => rfl⟩
  · simp only [forwardMatchup]
    rw [if_pos htie, if_pos htie]
    rw [lookup_updStand_ne _ aId hId _ hne, lookup_updStand_ne _ aId hId _ hne,
      lookup_updStand_self, lookup_updStand_self, hlh]
    rfl
  · simp only [forwardMatchup]
    rw [if_pos htie, if_pos htie]
    rw [lookup_updStand_self, lookup_updStand_self,
      lookup_updStand_ne _ hId aId _ (Ne.symm hne), lookup_updStand_ne _ hId aId _ (Ne.symm hne),
      hla]
    rfl

theorem continuous_gauss : Continuous fun t : ℝ => Real.exp (-(t ^ 2)) :=
  Real.continuous_exp.comp (continuous_pow 2).neg

theorem gauss_intervalIntegrable (a b : ℝ) :
    IntervalIntegrable (fun t : ℝ => Real.exp (-(t ^ 2))) MeasureTheory.volume a b :=
  continuous_gauss.intervalIntegrable a b

theorem gauss_integrable : MeasureTheory.Integrable fun t : ℝ => Real.exp (-(t ^ 2)) := by
  have h := integrable_exp_neg_mul_sq (b := 1) one_pos
  simpa using h

theorem intervalIntegral_gauss_pos {a b : ℝ} (hab : a < b) :
    0 < ∫ t in a..b, Real.exp (-(t ^ 2)) :=
  intervalIntegral.intervalIntegral_pos_of_pos (gauss_intervalIntegrable a b)
    (fun _ => Real.exp_pos _) hab

theorem erf_strictMono : StrictMono erf := by
  intro x y hxy
  unfold erf
  apply mul_lt_mul_of_pos_left _ (by positivity : (0:ℝ) < 2 / Real.sqrt Real.pi)
  have hsplit := intervalIntegral.integral_add_adjacent_intervals
    (gauss_intervalIntegrable 0 x) (gauss_intervalIntegrable x y)
  have hpos := intervalIntegral_gauss_pos hxy
  linarith

theorem erf_zero : erf 0 = 0 := by
  unfold erf
  simp

theorem erf_neg (x : ℝ) : erf (-x) = - erf x := by
  have h1 := intervalIntegral.integral_comp_neg (a := 0) (b := -x)
    fun t : ℝ => Real.exp (-(t ^ 2))
  simp only [neg_sq, neg_neg, neg_zero] at h1
  unfold erf
  rw [h1, intervalIntegral.integral_symm]
  ring

theorem gauss_setIntegral_Ioi_pos (a : ℝ) :
    0 < ∫ t in Set.Ioi a, Real.exp (-(t ^ 2)) := by
  have hunion : Set.Ioc a (a + 1) ∪ Set.Ioi (a + 1) = Set.Ioi a :=
    Set.Ioc_union_Ioi_eq_Ioi (by linarith)
  have hsum := MeasureTheory.setIntegral_union (μ := MeasureTheory.volume)
    (f := fun t : ℝ => Real.exp (-(t ^ 2)))
    (s := Set.Ioc a (a + 1)) (t := Set.Ioi (a + 1))
    (Set.Ioc_disjoint_Ioi le_rfl) measurableSet_Ioi
    gauss_integrable.integrableOn gauss_integrable.integrableOn
  rw [hunion] at hsum
  have h1 : 0 < ∫ t in Set.Ioc a (a + 1), Real.exp (-(t ^ 2)) := by
    rw [← intervalIntegral.integral_of_le (by linarith : a ≤ a + 1)]
    exact intervalIntegral_gauss_pos (by linarith)
  have h2 : 0 ≤ ∫ t in Set.Ioi (a + 1), Real.exp (-(t ^ 2)) :=
    MeasureTheory.setIntegral_nonneg measurableSet_Ioi fun t _ => (Real.exp_pos _).le
  rw [hsum]
  linarith

theorem gauss_interval_lt_total {x : ℝ} (hx : 0 < x) :
    (∫ t in (0:ℝ)..x, Real.exp (-(t ^ 2))) < Real.sqrt Real.pi / 2 := by
  have hIoi : (∫ t in Set.Ioi (0:ℝ), Real.exp (-(t ^ 2))) = Real.sqrt Real.pi / 2 := by
    have h := integral_gaussian_Ioi 1
    simpa using h
  have hunion : Set.Ioc (0:ℝ) x ∪ Set.Ioi x = Set.Ioi 0 :=
    Set.Ioc_union_Ioi_eq_Ioi hx.le
  have hsum := MeasureTheory.setIntegral_union (μ := MeasureTheory.volume)
    (f := fun t : ℝ => Real.exp (-(t ^ 2)))
    (s := Set.Ioc (0:ℝ) x) (t := Set.Ioi x)
    (Set.Ioc_disjoint_Ioi le_rfl) measurableSet_Ioi
    gauss_integrable.integrableOn gauss_integrable.integrableOn
  rw [hunion, hIoi] at hsum
  have hrest := gauss_setIntegral_Ioi_pos x
  rw [intervalIntegral.integral_of_le hx.le]
  linarith

theorem erf_lt_one (x : ℝ) : erf x < 1 := by
  rcases le_or_lt x 0 with hx | hx
  · rcases lt_or_eq_of_le hx with hlt | heq
    · have h0 : erf x < erf 0 := erf_strictMono hlt
      rw [erf_zero] at h0
      linarith
    · rw [heq, erf_zero]
      norm_num
  · unfold erf
    have h := gauss_interval_lt_total hx
    have h2 : 2 / Real.sqrt Real.pi * (Real.sqrt Real.pi / 2) = 1 := by
      have hpi : Real.sqrt Real.pi ≠ 0 := by positivity
      field_simp
    have h3 := mul_lt_mul_of_pos_left h
      (show (0:ℝ) < 2 / Real.sqrt Real.pi by positivity)
    rw [h2] at h3
    exact h3

theorem neg_one_lt_erf (x : ℝ) : -1 < erf x := by
  have h := erf_lt_one (-x)
  rw [erf_neg] at h
  linarith

theorem clamp_of_mem {p : ℝ} (h0 : 0 ≤ p) (h1 : p ≤ 1) : max 0 (min 1 p) = p := by
  rw [min_eq_right h1, max_eq_right h0]

theorem estimate_pos_sigma (home away sigma : ℝ) (hs : 0 < sigma) :
    estimateWinProbabilities home away sigma
      = (1/2 * (1 + erf ((home - away) / (Real.sqrt 2 * sigma))),
         1 - 1/2 * (1 + erf ((home - away) / (Real.sqrt 2 * sigma)))) := by
  simp only [estimateWinProbabilities]
  rw [if_neg (by linarith)]
  have hb1 : -1 < erf ((home - away) / (Real.sqrt 2 * sigma)) := neg_one_lt_erf _
  have hb2 : erf ((home - away) / (Real.sqrt 2 * sigma)) < 1 := erf_lt_one _
  rw [clamp_of_mem (by linarith) (by linarith)]

theorem estimate_eq_points (v sigma : ℝ) (hs : 0 < sigma) :
    estimateWinProbabilities v v sigma = (1/2, 1/2) := by
  rw [estimate_pos_sigma v v sigma hs]
  simp [sub_self, zero_div, erf_zero]
  norm_num

/-- C5: for `sigma > 0` the estimate returns complementary probabilities
summing to exactly 1, `home_prob` is strictly increasing in the margin
`home - away`, and enlarging sigma moves `home_prob` strictly toward 0.5 for
any fixed non-zero margin. -/
theorem win_probability_sum_and_monotone (sigma : ℝ) (hs : 0 < sigma) :
    (∀ home away : ℝ, (estimateWinProbabilities home away sigma).1
      + (estimateWinProbabilities home away sigma).2 = 1)
  ∧ (∀ h1 a1 h2 a2 : ℝ, h1 - a1 < h2 - a2 →
      (estimateWinProbabilities h1 a1 sigma).1 < (estimateWinProbabilities h2 a2 sigma).1)
  ∧ (∀ sigma2 home away : ℝ, sigma < sigma2 → 0 < home - away →
      1/2 < (estimateWinProbabilities home away sigma2).1
      ∧ (estimateWinProbabilities home away sigma2).1
          < (estimateWinProbabilities home away sigma).1)
  ∧ (∀ sigma2 home away : ℝ, sigma < sigma2 → home - away < 0 →
      (estimateWinProbabilities home away sigma).1
          < (estimateWinProbabilities home away sigma2).1
      ∧ (estimateWinProbabilities home away sigma2).1 < 1/2) := by
  have hden : (0:ℝ) < Real.sqrt 2 * sigma := by positivity
  refine ⟨?_, ?_, ?_, ?_⟩
  · intro home away
    rw [estimate_pos_sigma home away sigma hs]
    ring
  · intro h1 a1 h2 a2 hm
    rw [estimate_pos_sigma h1 a1 sigma hs, estimate_pos_sigma h2 a2 sigma hs]
    have hz : (h1 - a1) / (Real.sqrt 2 * sigma) < (h2 - a2) / (Real.sqrt 2 * sigma) :=
      (div_lt_div_iff_of_pos_right hden).mpr hm
    have := erf_strictMono hz
    simp only []
    linarith
  · intro sigma2 home away hss hm
    have hs2 : 0 < sigma2 := lt_trans hs hss
    have hden2 : (0:ℝ) < Real.sqrt 2 * sigma2 := by positivity
    rw [estimate_pos_sigma home away sigma hs, estimate_pos_sigma home away sigma2 hs2]
    have hzz : (home - away) / (Real.sqrt 2 * sigma2)
        < (home - away) / (Real.sqrt 2 * sigma) := by
      apply div_lt_div_of_pos_left hm hden
      have : (0:ℝ) < Real.sqrt 2 := by positivity
      nlinarith
    have hz2pos : (0:ℝ) < (home - away) / (Real.sqrt 2 * sigma2) := by positivity
    have he1 : erf 0 < erf ((home - away) / (Real.sqrt 2 * sigma2)) := erf_strictMono hz2pos
    rw [erf_zero] at he1
    have he2 := erf_strictMono hzz
    constructor
    · simp only []
      linarith
    · simp only []
      linarith
  · intro sigma2 home away hss hm
    have hs2 : 0 < sigma2 := lt_trans hs hss
    have hden2 : (0:ℝ) < Real.sqrt 2 * sigma2 := by positivity
    rw [estimate_pos_sigma home away sigma hs, estimate_pos_sigma home away sigma2 hs2]
    have hneg : (0:ℝ) < -(home - away) := by linarith
    have hzz0 : (-(home - away)) / (Real.sqrt 2 * sigma2)
        < (-(home - away)) / (Real.sqrt 2 * sigma) := by
      apply div_lt_div_of_pos_left hneg hden
      have : (0:ℝ) < Real.sqrt 2 := by positivity
      nlinarith
    have hzz : (home - away) / (Real.sqrt 2 * sigma)
        < (home - away) / (Real.sqrt 2 * sigma2) := by
      rw [neg_div, neg_div, neg_lt_neg_iff] at hzz0
      exact hzz0
    have hz2neg : (home - away) / (Real.sqrt 2 * sigma2) < 0 := by
      apply div_neg_of_neg_of_pos hm hden2
    have he1 : erf ((home - away) / (Real.sqrt 2 * sigma2)) < erf 0 := erf_strictMono hz2neg
    rw [erf_zero] at he1
    have he2 := erf_strictMono hzz
    constructor
    · simp only []
      linarith
    · simp only []
      linarith

/-- Witness for C5 at `sigma = 1` and concrete margins. -/
theorem win_probability_sum_and_monotone_witness :
    (0:ℝ) < 1
  ∧ (estimateWinProbabilities 3 1 1).1 + (estimateWinProbabilities 3 1 1).2 = 1
  ∧ ((3:ℝ) - 1 < 5 - 1
      ∧ (estimateWinProbabilities 3 1 1).1 < (estimateWinProbabilities 5 1 1).1) := by
  have h := win_probability_sum_and_monotone 1 one_pos
  exact ⟨one_pos, h.1 3 1, ⟨by norm_num, h.2.1 3 1 5 1 (by norm_num)⟩⟩

/-- Witness for C9: equal projected totals give probabilities (0.5, 0.5),
which differ by less than 1e-6, and both teams gain a whole tie. -/
theorem projected_tie_handling_witness :
    ((1 : ℤ) ≠ 2)
  ∧ |(estimateWinProbabilities (tpPts 1 100).projected_points
        (tpPts 2 100).projected_points 18).1
      - (estimateWinProbabilities (tpPts 1 100).projected_points
          (tpPts 2 100).projected_points 18).2| < 1e-6
  ∧ List.lookup 1 (forwardMatchup trC2 18 2 "201" 1 2 (tpPts 1 100) (tpPts 2 100)).tracker
      = some ⟨0 + (estimateWinProbabilities (tpPts 1 100).projected_points
            (tpPts 2 100).projected_points 18).1,
          0 + (estimateWinProbabilities (tpPts 1 100).projected_points
            (tpPts 2 100).projected_points 18).2,
          0 + 1, 0 + (tpPts 1 100).projected_points⟩ := by
  have hne : (1 : ℤ) ≠ 2 := by decide
  have hpts1 : (tpPts 1 100).projected_points = 100 := rfl
  have hpts2 : (tpPts 2 100).projected_points = 100 := rfl
  have htie : |(estimateWinProbabilities (tpPts 1 100).projected_points
      (tpPts 2 100).projected_points 18).1
      - (estimateWinProbabilities (tpPts 1 100).projected_points
        (tpPts 2 100).projected_points 18).2| < 1e-6 := by
    rw [hpts1, hpts2, estimate_eq_points 100 18 (by norm_num)]
    norm_num
  exact ⟨hne, htie, (projected_tie_handling trC2 18 2 "201" 1 2 (tpPts 1 100) (tpPts 2 100)
    StandRec.zero StandRec.zero hne rfl rfl htie).1⟩

theorem classify_no_status_final_iff (w : String) (hp ap : ℝ) :
    classifyStatus "" w hp ap = "final" ↔ isWinnerFlag w = true := by
  unfold classifyStatus
  rw [if_neg (by decide : ¬(("" : String) = "final" ∨ ("" : String) = "in_progress"))]
  by_cases hflag : isWinnerFlag w = true
  · rw [if_pos hflag]
    simp [hflag]
  · rw [if_neg hflag]
    by_cases hcond : |hp - ap| > 1e-6 ∨ hp > 0 ∨ ap > 0
    · rw [if_pos hcond]
      simp [hflag]
    · rw [if_neg hcond]
      simp [hflag]

theorem classify_no_status_in_progress_iff (w : String) (hp ap : ℝ) :
    classifyStatus "" w hp ap = "in_progress"
      ↔ isWinnerFlag w = false ∧ (|hp - ap| > 1e-6 ∨ hp > 0 ∨ ap > 0) := by
  unfold classifyStatus
  rw [if_neg (by decide : ¬(("" : String) = "final" ∨ ("" : String) = "in_progress"))]
  by_cases hflag : isWinnerFlag w = true
  · rw [if_pos hflag]
    simp [hflag]
  · rw [if_neg hflag]
    by_cases hcond : |hp - ap| > 1e-6 ∨ hp > 0 ∨ ap > 0
    · rw [if_pos hcond]
      simp [Bool.eq_false_iff, hflag, hcond]
    · rw [if_neg hcond]
      simp [hcond]

theorem classify_no_status_scheduled_iff (w : String) (hp ap : ℝ) :
    classifyStatus "" w hp ap = "scheduled"
      ↔ isWinnerFlag w = false ∧ ¬(|hp - ap| > 1e-6 ∨ hp > 0 ∨ ap > 0) := by
  unfold classifyStatus
  rw [if_neg (by decide : ¬(("" : String) = "final" ∨ ("" : String) = "in_progress"))]
  by_cases hflag : isWinnerFlag w = true
  · rw [if_pos hflag]
    simp [hflag]
  · rw [if_neg hflag]
    by_cases hcond : |hp - ap| > 1e-6 ∨ hp > 0 ∨ ap > 0
    · rw [if_pos hcond]
      simp [hcond]
    · rw [if_neg hcond]
      simp [Bool.eq_false_iff, hflag, hcond]

/-- C2 amended: for a completed-week record carrying no live status, the
classification is: explicit winner flag ⇒ final; no flag but margin beyond
the 1e-6 tolerance or strictly positive points ⇒ in_progress; otherwise
scheduled (a live-scoreboard status of "final"/"in_progress" would take
precedence instead).  Non-final matchups leave the standings tracker
untouched and produce schedule entries with win probability exactly 0.5 and a
null result; final matchups with an explicit winner flag add whole
wins/losses/ties and both teams' points. -/
theorem history_classification_amended (rec : MatchResult) (tracker : List (ℤ × StandRec))
    (week : ℤ) (mid : String) (hId aId : ℤ) (hP aP : TeamProjection) (rh ra : StandRec)
    (hst : rec.status = none) (hne : hId ≠ aId)
    (hlh : List.lookup hId tracker = some rh) (hla : List.lookup aId tracker = some ra) :
    (classifyStatus (rec.status.getD "") (winnerUpperOf rec.winner)
        (rec.home_points.getD hP.projected_points) (rec.away_points.getD aP.projected_points)
      = "final" ↔ isWinnerFlag (winnerUpperOf rec.winner) = true)
  ∧ (classifyStatus (rec.status.getD "") (winnerUpperOf rec.winner)
        (rec.home_points.getD hP.projected_points) (rec.away_points.getD aP.projected_points)
      = "in_progress"
      ↔ isWinnerFlag (winnerUpperOf rec.winner) = false
        ∧ (|rec.home_points.getD hP.projected_points
              - rec.away_points.getD aP.projected_points| > 1e-6
            ∨ rec.home_points.getD hP.projected_points > 0
            ∨ rec.away_points.getD aP.projected_points > 0))
  ∧ (classifyStatus (rec.status.getD "") (winnerUpperOf rec.winner)
        (rec.home_points.getD hP.projected_points) (rec.away_points.getD aP.projected_points)
      = "scheduled"
      ↔ isWinnerFlag (winnerUpperOf rec.winner) = false
        ∧ ¬(|rec.home_points.getD hP.projected_points
              - rec.away_points.getD aP.projected_points| > 1e-6
            ∨ rec.home_points.getD hP.projected_points > 0
            ∨ rec.away_points.getD aP.projected_points > 0))
  ∧ (classifyStatus (rec.status.getD "") (winnerUpperOf rec.winner)
        (rec.home_points.getD hP.projected_points) (rec.away_points.getD aP.projected_points)
      ≠ "final" →
      (historyMatchup tracker week mid hId aId rec hP aP).tracker = tracker
      ∧ (historyMatchup tracker week mid hId aId rec hP aP).homeEntry.win_probability = 1/2
      ∧ (historyMatchup tracker week mid hId aId rec hP aP).awayEntry.win_probability = 1/2
      ∧ (historyMatchup tracker week mid hId aId rec hP aP).homeEntry.result = none
      ∧ (historyMatchup tracker week mid hId aId rec hP aP).awayEntry.result = none)
  ∧ (winnerUpperOf rec.winner = "HOME" →
      List.lookup hId (historyMatchup tracker week mid hId aId rec hP aP).tracker
        = some ⟨rh.wins + 1, rh.losses, rh.ties,
            rh.points + rec.home_points.getD hP.projected_points⟩
      ∧ List.lookup aId (historyMatchup tracker week mid hId aId rec hP aP).tracker
        = some ⟨ra.wins, ra.losses + 1, ra.ties,
            ra.points + rec.away_points.getD aP.projected_points⟩)
  ∧ (winnerUpperOf rec.winner = "AWAY" →
      List.lookup hId (historyMatchup tracker week mid hId aId rec hP aP).tracker
        = some ⟨rh.wins, rh.losses + 1, rh.ties,
            rh.points + rec.home_points.getD hP.projected_points⟩
      ∧ List.lookup aId (historyMatchup tracker week mid hId aId rec hP aP).tracker
        = some ⟨ra.wins + 1, ra.losses, ra.ties,
            ra.points + rec.away_points.getD aP.projected_points⟩)
  ∧ (winnerUpperOf rec.winner = "TIE" →
      List.lookup hId (historyMatchup tracker week mid hId aId rec hP aP).tracker
        = some ⟨rh.wins, rh.losses, rh.ties + 1,
            rh.points + rec.home_points.getD hP.projected_points⟩
      ∧ List.lookup aId (historyMatchup tracker week mid hId aId rec hP aP).tracker
        = some ⟨ra.wins, ra.losses, ra.ties + 1,
            ra.points + rec.away_points.getD aP.projected_points⟩) := by
  rw [hst]
  refine ⟨classify_no_status_final_iff _ _ _, classify_no_status_in_progress_iff _ _ _,
    classify_no_status_scheduled_iff _ _ _, ?_, ?_, ?_, ?_⟩
  · intro hnf
    simp only [historyMatchup, hst]
    rw [if_neg hnf, if_neg hnf]
    exact ⟨rfl, rfl, rfl, rfl, rfl⟩
  · intro hw
    have hfin : classifyStatus ((none : Option String).getD "") (winnerUpperOf rec.winner)
        (rec.home_points.getD hP.projected_points)
        (rec.away_points.getD aP.projected_points) = "final" := by
      rw [hw]
      unfold classifyStatus
      simp only [Option.getD_none]
      rw [if_neg (by decide : ¬(("" : String) = "final" ∨ ("" : String) = "in_progress"))]
      rw [if_pos (by decide : isWinnerFlag "HOME" = true)]
    simp only [historyMatchup, hst]
    rw [hfin, hw]
    rw [if_pos rfl, if_pos rfl]
    unfold finalOutcome
    rw [if_pos rfl]
    rw [if_pos rfl]
    constructor
    · rw [lookup_updStand_ne _ aId hId _ hne, lookup_updStand_self,
        lookup_updStand_ne _ aId hId _ hne, lookup_updStand_self, hlh]
      rfl
    · rw [lookup_updStand_self, lookup_updStand_ne _ hId aId _ (Ne.symm hne),
        lookup_updStand_self, lookup_updStand_ne _ hId aId _ (Ne.symm hne), hla]
      rfl
  · intro hw
    have hfin : classifyStatus ((none : Option String).getD "") (winnerUpperOf rec.winner)
        (rec.home_points.getD hP.projected_points)
        (rec.away_points.getD aP.projected_points) = "final" := by
      rw [hw]
      unfold classifyStatus
      simp only [Option.getD_none]
      rw [if_neg (by decide : ¬(("" : String) = "final" ∨ ("" : String) = "in_progress"))]
      rw [if_pos (by decide : isWinnerFlag "AWAY" = true)]
    simp only [historyMatchup, hst]
    rw [hfin, hw]
    rw [if_pos rfl, if_pos rfl]
    unfold finalOutcome
    rw [if_neg (by decide : ¬("AWAY" : String) = "HOME"), if_pos rfl]
    rw [if_neg (by decide : ¬(some ("loss" : String)) = some "win"), if_pos rfl]
    constructor
    · rw [lookup_updStand_ne _ aId hId _ hne, lookup_updStand_self,
        lookup_updStand_ne _ aId hId _ hne, lookup_updStand_self, hlh]
      rfl
    · rw [lookup_updStand_self, lookup_updStand_ne _ hId aId _ (Ne.symm hne),
        lookup_updStand_self, lookup_updStand_ne _ hId aId _ (Ne.symm hne), hla]
      rfl
  · intro hw
    have hfin : classifyStatus ((none : Option String).getD "") (winnerUpperOf rec.winner)
        (rec.home_points.getD hP.projected_points)
        (rec.away_points.getD aP.projected_points) = "final" := by
      rw [hw]
      unfold classifyStatus
      simp only [Option.getD_none]
      rw [if_neg (by decide : ¬(("" : String) = "final" ∨ ("" : String) = "in_progress"))]
      rw [if_pos (by decide : isWinnerFlag "TIE" = true)]
    simp only [historyMatchup, hst]
    rw [hfin, hw]
    rw [if_pos rfl, if_pos rfl]
    unfold finalOutcome
    rw [if_neg (by decide : ¬("TIE" : String) = "HOME"),
      if_neg (by decide : ¬("TIE" : String) = "AWAY"), if_pos rfl]
    rw [if_neg (by decide : ¬(some ("tie" : String)) = some "win"),
      if_neg (by decide : ¬(some ("tie" : String)) = some "loss")]
    constructor
    · rw [lookup_updStand_ne _ aId hId _ hne, lookup_updStand_self,
        lookup_updStand_ne _ aId hId _ hne, lookup_updStand_self, hlh]
      rfl
    · rw [lookup_updStand_self, lookup_updStand_ne _ hId aId _ (Ne.symm hne),
        lookup_updStand_self, lookup_updStand_ne _ hId aId _ (Ne.symm hne), hla]
      rfl

theorem applyLiveToPayload_winner (sb : List ((ℤ × String) × LiveEntry))
    (rt : List (ℤ × List (ℤ × ℝ))) (w : ℤ) (m : String) (p : MatchResult) :
    (applyLiveToPayload sb rt w m p).winner = p.winner := by
  simp only [applyLiveToPayload]
  repeat' split
  all_goals rfl

/-- Counterexample for C2: a stored 10-0 matchup with NO winner flag, paired
with a live scoreboard entry reporting FINAL, is enriched to a record with
`status = "final"` and still no winner flag; `build_dataset` then classifies
it as `final` (live status takes precedence), whereas the claim's rule
(no winner flag, non-zero margin) would classify it `in_progress`. -/
theorem live_status_classification_cex :
    recC2.winner = none
  ∧ recC2.home_points = some 10
  ∧ recC2.away_points = some 0
  ∧ enrichedC2.status = some "final"
  ∧ enrichedC2.winner = none
  ∧ classifyStatus (enrichedC2.status.getD "") (winnerUpperOf enrichedC2.winner) 10 0 = "final"
  ∧ specClassify (winnerUpperOf enrichedC2.winner) 10 0 = "in_progress"
  ∧ ("final" : String) ≠ "in_progress" := by
  have hs : enrichedC2.status = some "final" := rfl
  have hw : enrichedC2.winner = none := by
    have h := applyLiveToPayload_winner [((1, "101"), liveC2)] [] 1 "101" recC2
    exact h.trans rfl
  refine ⟨rfl, rfl, rfl, hs, hw, ?_, ?_, by decide⟩
  · rw [hs, hw]
    unfold classifyStatus
    rw [if_pos (Or.inl (show (some "final").getD "" = "final" from rfl))]
    rfl
  · rw [hw]
    unfold specClassify
    rw [if_neg (by decide : ¬isWinnerFlag (winnerUpperOf none) = true)]
    rw [if_pos (Or.inl (by norm_num : (10 : ℝ) - 0 ≠ 0))]

/-- Witness for the amended C2 at a concrete record: explicit HOME winner,
no live status, 120-110 final score. -/
theorem history_classification_amended_witness :
    recC2w.status = none
  ∧ (1 : ℤ) ≠ 2
  ∧ (classifyStatus (recC2w.status.getD "") (winnerUpperOf recC2w.winner)
      (recC2w.home_points.getD (tpJunk 1).projected_points)
      (recC2w.away_points.getD (tpJunk 2).projected_points) = "final"
      ↔ isWinnerFlag (winnerUpperOf recC2w.winner) = true)
  ∧ (winnerUpperOf recC2w.winner = "HOME" →
      List.lookup 1 (historyMatchup trC2 1 "101" 1 2 recC2w (tpJunk 1) (tpJunk 2)).tracker
        = some ⟨0 + 1, 0, 0, 0 + recC2w.home_points.getD (tpJunk 1).projected_points⟩) := by
  have h := history_classification_amended recC2w trC2 1 "101" 1 2 (tpJunk 1) (tpJunk 2)
    StandRec.zero StandRec.zero rfl (by decide) rfl rfl
  exact ⟨rfl, by decide, h.1, fun hw => (h.2.2.2.2.1 hw).1⟩

theorem lookup_some_mem {α : Type} (l : List (ℤ × α)) (k : ℤ) (a : α)
    (h : List.lookup k l = some a) : (k, a) ∈ l := by
  induction l with
  | nil => simp [List.lookup] at h
  | cons p l ih =>
    rcases p with ⟨k1, v⟩
    simp only [List.lookup] at h
    cases hbe : (k == k1) with
    | true =>
      rw [hbe] at h
      injection h with h
      subst h
      have hk : k = k1 := by simpa using hbe
      subst hk
      exact List.mem_cons_self _ _
    | false =>
      rw [hbe] at h
      exact List.mem_cons_of_mem _ (ih h)

theorem updAssoc_pred {α : Type} (P : α → Prop) (l : List (ℤ × α)) (tid : ℤ) (f : α → α)
    (hl : ∀ p ∈ l, P p.2) (hf : ∀ a, P a → P (f a)) :
    ∀ p ∈ updAssoc l tid f, P p.2 := by
  intro p hp
  unfold updAssoc at hp
  rw [List.mem_map] at hp
  obtain ⟨q, hq, hpq⟩ := hp
  by_cases h : q.1 = tid
  · rw [if_pos h] at hpq
    subst hpq
    exact hf q.2 (hl q hq)
  · rw [if_neg h] at hpq
    subst hpq
    exact hl q hq

theorem mcSeedUpdate_playoff_zero (aggs : List (ℤ × Agg)) (ranked : List ℤ)
    (wins losses points : List (ℤ × ℝ))
    (h : ∀ p ∈ aggs, p.2.playoff_count = 0) :
    ∀ p ∈ mcSeedUpdate aggs 0 ranked wins losses points, p.2.playoff_count = 0 := by
  unfold mcSeedUpdate
  generalize ranked.enum = l
  induction l generalizing aggs with
  | nil => simpa using h
  | cons ip l ih =>
    simp only [List.foldl_cons]
    apply ih
    apply updAssoc_pred (fun a => a.playoff_count = 0) aggs ip.2 _ h
    intro a ha
    simp only []
    rw [if_neg (by omega : ¬ ((ip.1 + 1 : ℕ) : ℤ) ≤ 0)]
    simpa using ha

theorem mc_iterfold_playoff_zero (rolls : ℕ → ℝ) (ordered : List MatchupProjection)
    (team_ids : List ℤ) (base : List (ℤ × BaseRec)) (l : List ℕ) (st : ℕ × List (ℤ × Agg))
    (h : ∀ p ∈ st.2, p.2.playoff_count = 0) :
    ∀ p ∈ (l.foldl (fun st _ => mcIteration rolls ordered team_ids base 0 st) st).2,
      p.2.playoff_count = 0 := by
  induction l generalizing st with
  | nil => simpa using h
  | cons x l ih =>
    simp only [List.foldl_cons]
    apply ih
    unfold mcIteration
    simp only []
    exact mcSeedUpdate_playoff_zero _ _ _ _ _ h

/-- C10: the Monte Carlo estimator never rejects a non-positive
`playoff_slots`: any such value is treated as 0, every team's reported
`playoff_odds` is exactly 0, the reported `playoff_slots` is 0, and the run
completes without error for every positive iteration count. -/
theorem monte_carlo_nonpositive_slots (rolls : ℕ → ℝ) (matchups : List MatchupProjection)
    (teams : List (ℤ × TeamMeta)) (iterations playoff_slots : ℤ) (rseed : Option ℤ)
    (base : List (ℤ × BaseRec)) (future : List (ℤ × ℕ))
    (hs : playoff_slots ≤ 0) (hi : 1 ≤ iterations) :
    runMonteCarlo rolls matchups teams iterations playoff_slots rseed base future
      = runMonteCarlo rolls matchups teams iterations 0 rseed base future
  ∧ (∀ e, runMonteCarlo rolls matchups teams iterations playoff_slots rseed base future
      ≠ .error e)
  ∧ (∀ mc, runMonteCarlo rolls matchups teams iterations playoff_slots rseed base future
      = .ok mc →
      mc.playoff_slots = 0 ∧ ∀ row ∈ mc.teams, row.playoff_odds = 0) := by
  have hnn : ¬ iterations ≤ 0 := by omega
  refine ⟨?_, ?_, ?_⟩
  · unfold runMonteCarlo
    rw [if_pos hs, if_pos (le_refl (0 : ℤ))]
  · intro e
    unfold runMonteCarlo
    rw [if_neg hnn]
    simp
  · intro mc hmc
    simp only [runMonteCarlo] at hmc
    rw [if_neg hnn, if_pos hs] at hmc
    injection hmc with h
    subst h
    refine ⟨rfl, ?_⟩
    intro row hrow
    simp only [List.mem_mergeSort, List.mem_filterMap] at hrow
    obtain ⟨tid, _, hrow⟩ := hrow
    cases hmeta : List.lookup tid teams with
    | none => rw [hmeta] at hrow; exact absurd hrow (by simp)
    | some meta =>
      rw [hmeta] at hrow
      cases hagg : List.lookup tid
          ((List.range iterations.toNat).foldl
            (fun st _ => mcIteration rolls (mcWeekOrdered matchups) (teams.map (·.1))
              base 0 st) (0, (teams.map (·.1)).map fun tid => (tid, {}))).2 with
      | none => rw [hagg] at hrow; exact absurd hrow (by simp)
      | some a =>
        rw [hagg] at hrow
        have hmem := lookup_some_mem _ _ _ hagg
        have hzero : ∀ p ∈ ((List.range iterations.toNat).foldl
            (fun st _ => mcIteration rolls (mcWeekOrdered matchups) (teams.map (·.1))
              base 0 st) (0, (teams.map (·.1)).map fun tid => (tid, {}))).2,
            p.2.playoff_count = 0 := by
          apply mc_iterfold_playoff_zero
          intro p hp
          simp only [List.mem_map] at hp
          obtain ⟨t, _, hpt⟩ := hp
          subst hpt
          rfl
        have ha : a.playoff_count = 0 := hzero (tid, a) hmem
        have hr : row = mcTeamRow meta a (iterations : ℝ) (lookupD future tid 0) := by
          simpa using hrow.symm
        rw [hr]
        simp only [mcTeamRow, ha]
        norm_num

/-- Witness for C10 at a concrete run: 3 iterations, playoff_slots -2. -/
theorem monte_carlo_nonpositive_slots_witness :
    ((-2 : ℤ) ≤ 0) ∧ ((1 : ℤ) ≤ 3)
  ∧ runMonteCarlo (fun _ => 0.3) [mC10] teamsC10 3 (-2) none [] []
      = runMonteCarlo (fun _ => 0.3) [mC10] teamsC10 3 0 none [] [] := by
  have h := monte_carlo_nonpositive_slots (fun _ => 0.3) [mC10] teamsC10 3 (-2) none [] []
    (by norm_num) (by norm_num)
  exact ⟨by norm_num, by norm_num, h.1⟩
